import Mathlib

/-!
Verification of the semantic-checking pass of the tree-sitter-graph DSL
(`src/checker.rs`).  The checker validates stanza bodies against variable
scoping rules and the capture-cardinality algebra before execution.

The definitions below are a shallow embedding of `checker.rs`.  Types that
live in collaborating modules of the repository that are not part of the
given source (`variables.rs`, `parser.rs`, the interning `Context`) or in
the external `tree_sitter` crate (`Query`, `CaptureQuantifier`) are
modelled from the specification of their contracts; each such definition
says so in its doc comment.  Rust `Result` becomes `Except`, the in-place
annotation of AST nodes becomes returning the updated node, and the
`&mut dyn Variables` environment becomes an explicitly threaded chain of
scopes.  A Rust `unwrap`/index panic is modelled by the distinguished
outcome `CheckFailure.panicked`.
-/

namespace TSG

/-- Cardinality of a capture, from the external tree-sitter crate
(`CaptureQuantifier`): exactly one, zero-or-one, zero-or-more, one-or-more. -/
inductive CaptureQuantifier where
  | One
  | ZeroOrOne
  | ZeroOrMore
  | OneOrMore
deriving DecidableEq, Repr

/-- Source location, opaque to the checker beyond being reproducible in
error messages; modelled as a number. -/
abbrev Location := Nat

/-- Result of checking an expression (`ExpressionResult` in checker.rs):
the inferred cardinality. -/
structure ExpressionResult where
  quantifier : CaptureQuantifier
deriving DecidableEq, Repr

/-- Modelled from the spec: the scoping-error kinds of `variables.rs`
(`VariableError`): duplicate declaration in the same scope, assignment to a
name undeclared in every visible scope, reassignment of an immutable
binding. -/
inductive VariableError where
  | variableAlreadyDefined
  | undefinedVariable
  | cannotAssignImmutableVariable
deriving DecidableEq, Repr

/-- Error taxonomy of the checker (`CheckError` in checker.rs). -/
inductive CheckError where
  | ExpectedListValue (loc : Location)
  | ExpectedOptionalValue (loc : Location)
  | UndefinedSyntaxCapture (name : String) (loc : Location)
  | Variable (err : VariableError) (name : String)
deriving DecidableEq, Repr

/-- Failure of a check call: either a reported `CheckError`, or a Rust
panic (a failed `unwrap` or an out-of-bounds index). -/
inductive CheckFailure where
  | err (e : CheckError)
  | panicked
deriving DecidableEq, Repr

/-- Index of the first occurrence of an element in a list, used to model
name lookup in compiled queries. -/
def idxOf? : List String → String → Option Nat
  | [], _ => none
  | s :: rest, name => if s = name then some 0 else (idxOf? rest name).map (· + 1)

/-- Element of a list at a position, used to model Rust slice indexing
(which panics when out of bounds). -/
def getAt : List α → Nat → Option α
  | [], _ => none
  | x :: _, 0 => some x
  | _ :: rest, j + 1 => getAt rest j

/-- Modelled from the spec: a compiled tree-sitter `Query` (external
crate), reduced to the contract the checker relies on: it is queryable by
name for a capture index, and provides, per stanza position, an ordered
table of per-capture cardinalities. -/
structure Query where
  capture_names : List String
  quantifier_tables : List (List CaptureQuantifier)
deriving DecidableEq, Repr

/-- Lookup of a capture index by name (`Query::capture_index_for_name`),
returning none when the query does not define the name. -/
def Query.capture_index_for_name (q : Query) (name : String) : Option Nat :=
  idxOf? q.capture_names name

/-- Per-stanza cardinality table (`Query::capture_quantifiers`); `none`
models the panic on an out-of-range pattern index. -/
def Query.capture_quantifiers (q : Query) (stanza_index : Nat) :
    Option (List CaptureQuantifier) :=
  getAt q.quantifier_tables stanza_index

/-- Modelled from the spec: the ambient name-interning service
(`crate::Context`).  Names are taken to be their resolved textual form, so
resolution and display are the identity. -/
structure Context where
deriving DecidableEq, Repr

/-- Modelled from the spec: resolving an interned name to its textual form. -/
def Context.resolve (_ : Context) (name : String) : String := name

/-- Modelled from the spec: the display form of a name used in variable
error messages (`DisplayWithContext`). -/
def display_with (name : String) (_ : Context) : String := name

/-- Modelled from the spec: the special full-match capture name defined by
the parser (`parser::FULL_MATCH`), present in the file-wide query for every
stanza. -/
def FULL_MATCH : String := "__tsg__full_match"

/-! ## Variable environment

Modelled from the spec: `variables.rs` is not part of the given source.
The environment is a chain of scopes, innermost first; the root
environment of a stanza is a single empty scope.  `add` touches only the
innermost scope, `set` and `get` walk the chain outward. -/

/-- A binding in the environment: the recorded cardinality of the bound
expression and the mutability flag fixed at declaration time. -/
structure Binding where
  value : ExpressionResult
  is_mutable : Bool
deriving DecidableEq, Repr

/-- One scope: a mapping from names to bindings. -/
abbrev Scope := List (String × Binding)

/-- The scope chain, innermost scope first.  Always nonempty while
checking; the operations treat the empty chain as having no bindings. -/
abbrev Env := List Scope

/-- Lookup of a name in a single scope. -/
def Scope.lookup : Scope → String → Option Binding
  | [], _ => none
  | (n, b) :: rest, name => if n = name then some b else Scope.lookup rest name

/-- Replacement of the recorded cardinality of a name in a single scope,
keeping the mutability flag. -/
def Scope.update : Scope → String → ExpressionResult → Scope
  | [], _, _ => []
  | (n, b) :: rest, name, value =>
    if n = name then (n, { b with value := value }) :: rest
    else (n, b) :: Scope.update rest name value

/-- Modelled from the spec: `Variables::add`.  Fails if the name is
already declared in the innermost scope (shadowing an outer binding is
allowed and creates a new, independent binding); otherwise inserts a
binding recording the cardinality and the mutability flag. -/
def Env.add (env : Env) (name : String) (value : ExpressionResult)
    (is_mutable : Bool) : Except VariableError Env :=
  match env with
  | [] => Except.error VariableError.undefinedVariable
  | scope :: rest =>
    match Scope.lookup scope name with
    | some _ => Except.error VariableError.variableAlreadyDefined
    | none => Except.ok (((name, ⟨value, is_mutable⟩) :: scope) :: rest)

/-- Modelled from the spec: `Variables::set`.  Walks the scope chain;
fails if the name is undeclared in every visible scope, and fails if the
first binding found is immutable; on success updates the cardinality
recorded for that binding. -/
def Env.set (env : Env) (name : String) (value : ExpressionResult) :
    Except VariableError Env :=
  match env with
  | [] => Except.error VariableError.undefinedVariable
  | scope :: rest =>
    match Scope.lookup scope name with
    | some b =>
      if b.is_mutable then Except.ok (Scope.update scope name value :: rest)
      else Except.error VariableError.cannotAssignImmutableVariable
    | none =>
      match Env.set rest name value with
      | Except.ok rest' => Except.ok (scope :: rest')
      | Except.error e => Except.error e

/-- Modelled from the spec: `Variables::get`.  Walks the scope chain and
returns the first binding found, if any. -/
def Env.get : Env → String → Option Binding
  | [], _ => none
  | scope :: rest, name =>
    match Scope.lookup scope name with
    | some b => some b
    | none => Env.get rest name

/-- Modelled from the spec: `VariableMap::new_child`, a fresh child scope
whose lookups fall through to the current environment. -/
def Env.new_child (env : Env) : Env := [] :: env

/-! ## Abstract syntax

The AST shapes (`ast.rs` is not part of the given source) are taken from
the fields and methods `checker.rs` uses on each node; payloads the
checker never reads (constant values, attribute names) are kept where they
are cheap.  A capture node carries the mutable annotation slots the
checker fills in (`stanza_capture_index`, `file_capture_index`,
`quantifier`). -/

/-- A capture reference `@name` inside a stanza body, with the slots the
checker annotates. -/
structure Capture where
  name : String
  location : Location
  stanza_capture_index : Nat
  file_capture_index : Nat
  quantifier : CaptureQuantifier
deriving DecidableEq, Repr

/-- An unscoped variable: a bare name resolved through the lexical
environment. -/
structure UnscopedVariable where
  name : String
deriving DecidableEq, Repr

mutual
/-- The expression grammar (`ast::Expression`). -/
inductive Expression where
  | falseLiteral
  | nullLiteral
  | trueLiteral
  | integerConstant (value : Int)
  | stringConstant (value : String)
  | list (elements : List Expression)
  | set (elements : List Expression)
  | capture (c : Capture)
  | var (v : Variable)
  | call (parameters : List Expression)
  | regexCapture (group : Nat)

/-- A variable: unscoped, or scoped by an expression (`ast::Variable`). -/
inductive Variable where
  | unscoped (v : UnscopedVariable)
  | scoped (v : ScopedVariable)

/-- A scoped variable: an attribute name off a scope expression
(`ast::ScopedVariable`). -/
inductive ScopedVariable where
  | mk (scope : Expression) (name : String)
end

/-- The scope expression of a scoped variable. -/
def ScopedVariable.scope : ScopedVariable → Expression
  | .mk s _ => s

/-- The restricted expression grammar allowed as a scan value
(`ast::ScanExpression`). -/
inductive ScanExpression where
  | stringConstant (value : String)
  | capture (c : Capture)
  | var (v : Variable)
  | regexCapture (group : Nat)

/-- An attribute `name = expression` on a graph node or edge. -/
structure Attribute where
  name : String
  value : Expression

/-- A condition of a conditional pattern-arm (`ast::Condition`): matching
the absence or presence of the listed captures. -/
inductive Condition where
  | None (captures : List Capture)
  | Some (captures : List Capture)

/-- Statement `let v = value` (`ast::DeclareImmutable`). -/
structure DeclareImmutable where
  var : Variable
  value : Expression

/-- Statement `var v = value` (`ast::DeclareMutable`). -/
structure DeclareMutable where
  var : Variable
  value : Expression

/-- Statement `v = value` (`ast::Assign`). -/
structure Assign where
  var : Variable
  value : Expression

/-- Statement `node v` (`ast::CreateGraphNode`). -/
structure CreateGraphNode where
  node : Variable

/-- Statement `attr (node) name = value, ...` (`ast::AddGraphNodeAttribute`). -/
structure AddGraphNodeAttribute where
  node : Expression
  attributes : List Attribute

/-- Statement `edge source -> sink` (`ast::CreateEdge`). -/
structure CreateEdge where
  source : Expression
  sink : Expression

/-- Statement `attr (source -> sink) name = value, ...`
(`ast::AddEdgeAttribute`). -/
structure AddEdgeAttribute where
  source : Expression
  sink : Expression
  attributes : List Attribute

/-- Statement `print value, ...` (`ast::Print`). -/
structure Print where
  values : List Expression

mutual
/-- The statement grammar (`ast::Statement`). -/
inductive Statement where
  | declareImmutable (stmt : DeclareImmutable)
  | declareMutable (stmt : DeclareMutable)
  | assign (stmt : Assign)
  | createGraphNode (stmt : CreateGraphNode)
  | addGraphNodeAttribute (stmt : AddGraphNodeAttribute)
  | createEdge (stmt : CreateEdge)
  | addEdgeAttribute (stmt : AddEdgeAttribute)
  | scan (stmt : Scan)
  | print (stmt : Print)
  | ifStmt (stmt : If)
  | forIn (stmt : ForIn)

/-- Statement `scan value { arm ... }` (`ast::Scan`). -/
inductive Scan where
  | mk (value : ScanExpression) (arms : List ScanArm)

/-- One arm of a scan statement, with its own scope. -/
inductive ScanArm where
  | mk (regex : String) (statements : List Statement)

/-- Statement `if ... elif ...` (`ast::If`). -/
inductive If where
  | mk (arms : List IfArm)

/-- One arm of a conditional: guard conditions plus a body with its own
scope. -/
inductive IfArm where
  | mk (conditions : List Condition) (statements : List Statement)

/-- Statement `for var in capture { ... }` (`ast::ForIn`). -/
inductive ForIn where
  | mk (var : UnscopedVariable) (capture : Expression)
       (statements : List Statement) (location : Location)
end

/-- A stanza: its own compiled query, its body, and the slot for the
file-level index of the full-match capture that checking fills in. -/
structure Stanza where
  query : Query
  statements : List Statement
  full_match_file_capture_index : Nat

/-- A file: the stanzas and the file-wide combined query (`None` before
compilation; `File::check` unwraps it). -/
structure File where
  query : Option Query
  stanzas : List Stanza

/-! ## The checker

Each Rust method `fn check(&mut self, ctx) -> Result<T, CheckError>`
becomes a function from the node and the context to
`Except CheckFailure (node × ...)`, returning the annotated node; the
mutable `ctx.locals` environment is threaded explicitly next to the
read-only context. -/

/-- The read-only part of the checker context (`CheckContext` without
`locals`, which is threaded separately). -/
structure CheckContext where
  ctx : Context
  file_query : Query
  stanza_index : Nat
  stanza_query : Query

/-- Checking a capture reference (checker.rs lines 335 to 350): resolve
the name against the stanza query, failing with `UndefinedSyntaxCapture`
if absent; resolve it against the file query (an `unwrap`: absence is a
panic); read the cardinality from the per-stanza table of the file query
at the file-level index (slice indexing: out of range is a panic); record
both indices and the cardinality on the node and return the cardinality. -/
def Capture.check (c : Capture) (ctx : CheckContext) :
    Except CheckFailure (Capture × ExpressionResult) :=
  let name := ctx.ctx.resolve c.name
  match ctx.stanza_query.capture_index_for_name name with
  | none =>
    Except.error (CheckFailure.err (CheckError.UndefinedSyntaxCapture name c.location))
  | some stanza_capture_index =>
    match ctx.file_query.capture_index_for_name name with
    | none => Except.error CheckFailure.panicked
    | some file_capture_index =>
      match ctx.file_query.capture_quantifiers ctx.stanza_index with
      | none => Except.error CheckFailure.panicked
      | some table =>
        match getAt table file_capture_index with
        | none => Except.error CheckFailure.panicked
        | some quantifier =>
          Except.ok
            ({ c with
                stanza_capture_index := stanza_capture_index
                file_capture_index := file_capture_index
                quantifier := quantifier },
             { quantifier := quantifier })

/-- Checking a declaration of an unscoped variable
(`UnscopedVariable::add_check`): delegate to the environment, wrapping a
scoping error together with the display form of the name. -/
def UnscopedVariable.add_check (v : UnscopedVariable) (ctx : CheckContext)
    (env : Env) (value : ExpressionResult) (is_mutable : Bool) :
    Except CheckFailure Env :=
  match Env.add env v.name value is_mutable with
  | Except.ok env' => Except.ok env'
  | Except.error e =>
    Except.error (CheckFailure.err (CheckError.Variable e (display_with v.name ctx.ctx)))

/-- Checking an assignment to an unscoped variable
(`UnscopedVariable::set_check`): delegate to the environment, wrapping a
scoping error together with the display form of the name. -/
def UnscopedVariable.set_check (v : UnscopedVariable) (ctx : CheckContext)
    (env : Env) (value : ExpressionResult) : Except CheckFailure Env :=
  match Env.set env v.name value with
  | Except.ok env' => Except.ok env'
  | Except.error e =>
    Except.error (CheckFailure.err (CheckError.Variable e (display_with v.name ctx.ctx)))

/-- Checking a read of an unscoped variable
(`UnscopedVariable::get_check`): if the name is not found in any scope, a
default `One` result is returned for a possible global variable rather
than an error. -/
def UnscopedVariable.get_check (v : UnscopedVariable) (_ctx : CheckContext)
    (env : Env) : Except CheckFailure ExpressionResult :=
  Except.ok
    (match Env.get env v.name with
     | some b => b.value
     | none => { quantifier := CaptureQuantifier.One })

mutual
/-- Checking an expression (`Expression::check`): literals, calls and
regex captures report `One`; list and set comprehensions check their
elements and report `ZeroOrMore`; captures and variables delegate. -/
def Expression.check : Expression → CheckContext → Env →
    Except CheckFailure (Expression × ExpressionResult)
  | Expression.falseLiteral, _, _ =>
    Except.ok (Expression.falseLiteral, { quantifier := CaptureQuantifier.One })
  | Expression.nullLiteral, _, _ =>
    Except.ok (Expression.nullLiteral, { quantifier := CaptureQuantifier.One })
  | Expression.trueLiteral, _, _ =>
    Except.ok (Expression.trueLiteral, { quantifier := CaptureQuantifier.One })
  | Expression.integerConstant value, _, _ =>
    Except.ok (Expression.integerConstant value, { quantifier := CaptureQuantifier.One })
  | Expression.stringConstant value, _, _ =>
    Except.ok (Expression.stringConstant value, { quantifier := CaptureQuantifier.One })
  | Expression.list elements, ctx, env =>
    match Expressions.check elements ctx env with
    | Except.ok elements' =>
      Except.ok (Expression.list elements', { quantifier := CaptureQuantifier.ZeroOrMore })
    | Except.error e => Except.error e
  | Expression.set elements, ctx, env =>
    match Expressions.check elements ctx env with
    | Except.ok elements' =>
      Except.ok (Expression.set elements', { quantifier := CaptureQuantifier.ZeroOrMore })
    | Except.error e => Except.error e
  | Expression.capture c, ctx, _ =>
    match Capture.check c ctx with
    | Except.ok (c', result) => Except.ok (Expression.capture c', result)
    | Except.error e => Except.error e
  | Expression.var v, ctx, env =>
    match Variable.get_check v ctx env with
    | Except.ok (v', result) => Except.ok (Expression.var v', result)
    | Except.error e => Except.error e
  | Expression.call parameters, ctx, env =>
    match Expressions.check parameters ctx env with
    | Except.ok parameters' =>
      Except.ok (Expression.call parameters', { quantifier := CaptureQuantifier.One })
    | Except.error e => Except.error e
  | Expression.regexCapture group, _, _ =>
    Except.ok (Expression.regexCapture group, { quantifier := CaptureQuantifier.One })

/-- Checking a list of expressions in order, discarding their results. -/
def Expressions.check : List Expression → CheckContext → Env →
    Except CheckFailure (List Expression)
  | [], _, _ => Except.ok []
  | e :: rest, ctx, env =>
    match Expression.check e ctx env with
    | Except.ok (e', _) =>
      match Expressions.check rest ctx env with
      | Except.ok rest' => Except.ok (e' :: rest')
      | Except.error err => Except.error err
    | Except.error err => Except.error err

/-- Checking a read of a variable (`Variable::get_check`): dispatch on the
variable kind. -/
def Variable.get_check : Variable → CheckContext → Env →
    Except CheckFailure (Variable × ExpressionResult)
  | Variable.unscoped v, ctx, env =>
    match UnscopedVariable.get_check v ctx env with
    | Except.ok result => Except.ok (Variable.unscoped v, result)
    | Except.error e => Except.error e
  | Variable.scoped v, ctx, env =>
    match ScopedVariable.get_check v ctx env with
    | Except.ok (v', result) => Except.ok (Variable.scoped v', result)
    | Except.error e => Except.error e

/-- Checking a read of a scoped variable (`ScopedVariable::get_check`):
only the scope sub-expression is checked; the result cardinality is always
`One` (a documented approximation). -/
def ScopedVariable.get_check : ScopedVariable → CheckContext → Env →
    Except CheckFailure (ScopedVariable × ExpressionResult)
  | ScopedVariable.mk scope name, ctx, env =>
    match Expression.check scope ctx env with
    | Except.ok (scope', _) =>
      Except.ok (ScopedVariable.mk scope' name, { quantifier := CaptureQuantifier.One })
    | Except.error e => Except.error e
end

/-- Checking a declaration of a scoped variable
(`ScopedVariable::add_check`): only the scope sub-expression is checked;
the value and the mutability flag are ignored and the environment is left
unchanged. -/
def ScopedVariable.add_check : ScopedVariable → CheckContext → Env →
    ExpressionResult → Bool → Except CheckFailure (ScopedVariable × Env)
  | ScopedVariable.mk scope name, ctx, env, _value, _is_mutable =>
    match Expression.check scope ctx env with
    | Except.ok (scope', _) => Except.ok (ScopedVariable.mk scope' name, env)
    | Except.error e => Except.error e

/-- Checking an assignment to a scoped variable
(`ScopedVariable::set_check`): only the scope sub-expression is checked;
the value is ignored and the environment is left unchanged. -/
def ScopedVariable.set_check : ScopedVariable → CheckContext → Env →
    ExpressionResult → Except CheckFailure (ScopedVariable × Env)
  | ScopedVariable.mk scope name, ctx, env, _value =>
    match Expression.check scope ctx env with
    | Except.ok (scope', _) => Except.ok (ScopedVariable.mk scope' name, env)
    | Except.error e => Except.error e

/-- Checking a declaration of a variable (`Variable::add_check`): dispatch
on the variable kind. -/
def Variable.add_check : Variable → CheckContext → Env → ExpressionResult →
    Bool → Except CheckFailure (Variable × Env)
  | Variable.unscoped v, ctx, env, value, is_mutable =>
    match UnscopedVariable.add_check v ctx env value is_mutable with
    | Except.ok env' => Except.ok (Variable.unscoped v, env')
    | Except.error e => Except.error e
  | Variable.scoped v, ctx, env, value, is_mutable =>
    match ScopedVariable.add_check v ctx env value is_mutable with
    | Except.ok (v', env') => Except.ok (Variable.scoped v', env')
    | Except.error e => Except.error e

/-- Checking an assignment to a variable (`Variable::set_check`): dispatch
on the variable kind. -/
def Variable.set_check : Variable → CheckContext → Env → ExpressionResult →
    Except CheckFailure (Variable × Env)
  | Variable.unscoped v, ctx, env, value =>
    match UnscopedVariable.set_check v ctx env value with
    | Except.ok env' => Except.ok (Variable.unscoped v, env')
    | Except.error e => Except.error e
  | Variable.scoped v, ctx, env, value =>
    match ScopedVariable.set_check v ctx env value with
    | Except.ok (v', env') => Except.ok (Variable.scoped v', env')
    | Except.error e => Except.error e

/-- Checking a scan value (`ScanExpression::check`): a restricted
sub-grammar reusing the same resolution logic. -/
def ScanExpression.check : ScanExpression → CheckContext → Env →
    Except CheckFailure (ScanExpression × ExpressionResult)
  | ScanExpression.stringConstant value, _, _ =>
    Except.ok (ScanExpression.stringConstant value, { quantifier := CaptureQuantifier.One })
  | ScanExpression.capture c, ctx, _ =>
    match Capture.check c ctx with
    | Except.ok (c', result) => Except.ok (ScanExpression.capture c', result)
    | Except.error e => Except.error e
  | ScanExpression.var v, ctx, env =>
    match Variable.get_check v ctx env with
    | Except.ok (v', result) => Except.ok (ScanExpression.var v', result)
    | Except.error e => Except.error e
  | ScanExpression.regexCapture group, _, _ =>
    Except.ok (ScanExpression.regexCapture group, { quantifier := CaptureQuantifier.One })

/-- Checking an attribute (`Attribute::check`): only the value expression
is checked. -/
def Attribute.check (a : Attribute) (ctx : CheckContext) (env : Env) :
    Except CheckFailure Attribute :=
  match Expression.check a.value ctx env with
  | Except.ok (value', _) => Except.ok { a with value := value' }
  | Except.error e => Except.error e

/-- Checking a list of attributes in order. -/
def Attributes.check : List Attribute → CheckContext → Env →
    Except CheckFailure (List Attribute)
  | [], _, _ => Except.ok []
  | a :: rest, ctx, env =>
    match Attribute.check a ctx env with
    | Except.ok a' =>
      match Attributes.check rest ctx env with
      | Except.ok rest' => Except.ok (a' :: rest')
      | Except.error e => Except.error e
    | Except.error e => Except.error e

/-- Checking the captures of a conditional pattern-arm (the loop body of
`Condition::check`, checker.rs lines 230 to 235): each capture is checked
and must have cardinality exactly `ZeroOrOne`; the first one that does not
fails with `ExpectedOptionalValue` at that capture. -/
def Condition.checkCaptures : List Capture → CheckContext →
    Except CheckFailure (List Capture)
  | [], _ => Except.ok []
  | c :: rest, ctx =>
    match Capture.check c ctx with
    | Except.ok (c', result) =>
      if result.quantifier ≠ CaptureQuantifier.ZeroOrOne then
        Except.error (CheckFailure.err (CheckError.ExpectedOptionalValue c.location))
      else
        match Condition.checkCaptures rest ctx with
        | Except.ok rest' => Except.ok (c' :: rest')
        | Except.error e => Except.error e
    | Except.error e => Except.error e

/-- Checking a condition (`Condition::check`, checker.rs lines 223 to
238): both the absence and the presence form check their captures the same
way. -/
def Condition.check : Condition → CheckContext → Except CheckFailure Condition
  | Condition.None captures, ctx =>
    match Condition.checkCaptures captures ctx with
    | Except.ok captures' => Except.ok (Condition.None captures')
    | Except.error e => Except.error e
  | Condition.Some captures, ctx =>
    match Condition.checkCaptures captures ctx with
    | Except.ok captures' => Except.ok (Condition.Some captures')
    | Except.error e => Except.error e

/-- Checking the guard conditions of one conditional arm in order. -/
def Conditions.check : List Condition → CheckContext →
    Except CheckFailure (List Condition)
  | [], _ => Except.ok []
  | c :: rest, ctx =>
    match Condition.check c ctx with
    | Except.ok c' =>
      match Conditions.check rest ctx with
      | Except.ok rest' => Except.ok (c' :: rest')
      | Except.error e => Except.error e
    | Except.error e => Except.error e

/-- Checking `let v = value` (`DeclareImmutable::check`): check the value,
then declare the target immutably with the resulting cardinality. -/
def DeclareImmutable.check (stmt : DeclareImmutable) (ctx : CheckContext)
    (env : Env) : Except CheckFailure (DeclareImmutable × Env) :=
  match Expression.check stmt.value ctx env with
  | Except.ok (value', result) =>
    match Variable.add_check stmt.var ctx env result false with
    | Except.ok (var', env') => Except.ok ({ var := var', value := value' }, env')
    | Except.error e => Except.error e
  | Except.error e => Except.error e

/-- Checking `var v = value` (`DeclareMutable::check`): check the value,
then declare the target mutably with the resulting cardinality. -/
def DeclareMutable.check (stmt : DeclareMutable) (ctx : CheckContext)
    (env : Env) : Except CheckFailure (DeclareMutable × Env) :=
  match Expression.check stmt.value ctx env with
  | Except.ok (value', result) =>
    match Variable.add_check stmt.var ctx env result true with
    | Except.ok (var', env') => Except.ok ({ var := var', value := value' }, env')
    | Except.error e => Except.error e
  | Except.error e => Except.error e

/-- Checking `v = value` (`Assign::check`): check the value, then reassign
the target, which must exist and be mutable. -/
def Assign.check (stmt : Assign) (ctx : CheckContext) (env : Env) :
    Except CheckFailure (Assign × Env) :=
  match Expression.check stmt.value ctx env with
  | Except.ok (value', result) =>
    match Variable.set_check stmt.var ctx env result with
    | Except.ok (var', env') => Except.ok ({ var := var', value := value' }, env')
    | Except.error e => Except.error e
  | Except.error e => Except.error e

/-- Checking `node v` (`CreateGraphNode::check`): bind the node variable
to a fresh immutable binding of cardinality `One`. -/
def CreateGraphNode.check (stmt : CreateGraphNode) (ctx : CheckContext)
    (env : Env) : Except CheckFailure (CreateGraphNode × Env) :=
  match Variable.add_check stmt.node ctx env
      { quantifier := CaptureQuantifier.One } false with
  | Except.ok (node', env') => Except.ok ({ node := node' }, env')
  | Except.error e => Except.error e

/-- Checking an `attr` statement on a node
(`AddGraphNodeAttribute::check`): check the node expression, then every
attribute value; no bindings are introduced. -/
def AddGraphNodeAttribute.check (stmt : AddGraphNodeAttribute)
    (ctx : CheckContext) (env : Env) :
    Except CheckFailure (AddGraphNodeAttribute × Env) :=
  match Expression.check stmt.node ctx env with
  | Except.ok (node', _) =>
    match Attributes.check stmt.attributes ctx env with
    | Except.ok attributes' =>
      Except.ok ({ node := node', attributes := attributes' }, env)
    | Except.error e => Except.error e
  | Except.error e => Except.error e

/-- Checking `edge source -> sink` (`CreateEdge::check`): check both
endpoint expressions. -/
def CreateEdge.check (stmt : CreateEdge) (ctx : CheckContext) (env : Env) :
    Except CheckFailure (CreateEdge × Env) :=
  match Expression.check stmt.source ctx env with
  | Except.ok (source', _) =>
    match Expression.check stmt.sink ctx env with
    | Except.ok (sink', _) =>
      Except.ok ({ source := source', sink := sink' }, env)
    | Except.error e => Except.error e
  | Except.error e => Except.error e

/-- Checking an `attr` statement on an edge (`AddEdgeAttribute::check`):
check both endpoints, then every attribute value. -/
def AddEdgeAttribute.check (stmt : AddEdgeAttribute) (ctx : CheckContext)
    (env : Env) : Except CheckFailure (AddEdgeAttribute × Env) :=
  match Expression.check stmt.source ctx env with
  | Except.ok (source', _) =>
    match Expression.check stmt.sink ctx env with
    | Except.ok (sink', _) =>
      match Attributes.check stmt.attributes ctx env with
      | Except.ok attributes' =>
        Except.ok ({ source := source', sink := sink', attributes := attributes' }, env)
      | Except.error e => Except.error e
    | Except.error e => Except.error e
  | Except.error e => Except.error e

/-- Checking `print value, ...` (`Print::check`): check every argument
expression in order. -/
def Print.check (stmt : Print) (ctx : CheckContext) (env : Env) :
    Except CheckFailure (Print × Env) :=
  match Expressions.check stmt.values ctx env with
  | Except.ok values' => Except.ok ({ values := values' }, env)
  | Except.error e => Except.error e

mutual
/-- Checking a statement (`Statement::check`): exhaustive dispatch over
the statement grammar. -/
def Statement.check : Statement → CheckContext → Env →
    Except CheckFailure (Statement × Env)
  | Statement.declareImmutable stmt, ctx, env =>
    match DeclareImmutable.check stmt ctx env with
    | Except.ok (stmt', env') => Except.ok (Statement.declareImmutable stmt', env')
    | Except.error e => Except.error e
  | Statement.declareMutable stmt, ctx, env =>
    match DeclareMutable.check stmt ctx env with
    | Except.ok (stmt', env') => Except.ok (Statement.declareMutable stmt', env')
    | Except.error e => Except.error e
  | Statement.assign stmt, ctx, env =>
    match Assign.check stmt ctx env with
    | Except.ok (stmt', env') => Except.ok (Statement.assign stmt', env')
    | Except.error e => Except.error e
  | Statement.createGraphNode stmt, ctx, env =>
    match CreateGraphNode.check stmt ctx env with
    | Except.ok (stmt', env') => Except.ok (Statement.createGraphNode stmt', env')
    | Except.error e => Except.error e
  | Statement.addGraphNodeAttribute stmt, ctx, env =>
    match AddGraphNodeAttribute.check stmt ctx env with
    | Except.ok (stmt', env') => Except.ok (Statement.addGraphNodeAttribute stmt', env')
    | Except.error e => Except.error e
  | Statement.createEdge stmt, ctx, env =>
    match CreateEdge.check stmt ctx env with
    | Except.ok (stmt', env') => Except.ok (Statement.createEdge stmt', env')
    | Except.error e => Except.error e
  | Statement.addEdgeAttribute stmt, ctx, env =>
    match AddEdgeAttribute.check stmt ctx env with
    | Except.ok (stmt', env') => Except.ok (Statement.addEdgeAttribute stmt', env')
    | Except.error e => Except.error e
  | Statement.scan stmt, ctx, env =>
    match Scan.check stmt ctx env with
    | Except.ok (stmt', env') => Except.ok (Statement.scan stmt', env')
    | Except.error e => Except.error e
  | Statement.print stmt, ctx, env =>
    match Print.check stmt ctx env with
    | Except.ok (stmt', env') => Except.ok (Statement.print stmt', env')
    | Except.error e => Except.error e
  | Statement.ifStmt stmt, ctx, env =>
    match If.check stmt ctx env with
    | Except.ok (stmt', env') => Except.ok (Statement.ifStmt stmt', env')
    | Except.error e => Except.error e
  | Statement.forIn stmt, ctx, env =>
    match ForIn.check stmt ctx env with
    | Except.ok (stmt', env') => Except.ok (Statement.forIn stmt', env')
    | Except.error e => Except.error e

/-- Checking a sequence of statements strictly in textual order, threading
the environment and short-circuiting on the first failure. -/
def Statements.check : List Statement → CheckContext → Env →
    Except CheckFailure (List Statement × Env)
  | [], _, env => Except.ok ([], env)
  | s :: rest, ctx, env =>
    match Statement.check s ctx env with
    | Except.ok (s', env') =>
      match Statements.check rest ctx env' with
      | Except.ok (rest', env'') => Except.ok (s' :: rest', env'')
      | Except.error e => Except.error e
    | Except.error e => Except.error e

/-- Checking a scan statement (`Scan::check`, checker.rs lines 168 to
188): check the scanned value, then check each arm. -/
def Scan.check : Scan → CheckContext → Env → Except CheckFailure (Scan × Env)
  | Scan.mk value arms, ctx, env =>
    match ScanExpression.check value ctx env with
    | Except.ok (value', _) =>
      match ScanArms.check arms ctx env with
      | Except.ok (arms', env') => Except.ok (Scan.mk value' arms', env')
      | Except.error e => Except.error e
    | Except.error e => Except.error e

/-- Checking the arms of a scan statement in order. -/
def ScanArms.check : List ScanArm → CheckContext → Env →
    Except CheckFailure (List ScanArm × Env)
  | [], _, env => Except.ok ([], env)
  | arm :: rest, ctx, env =>
    match ScanArm.check arm ctx env with
    | Except.ok (arm', env') =>
      match ScanArms.check rest ctx env' with
      | Except.ok (rest', env'') => Except.ok (arm' :: rest', env'')
      | Except.error e => Except.error e
    | Except.error e => Except.error e

/-- Checking one scan arm: its statements run in a fresh child scope,
which is discarded afterwards (the final match is the implicit drop of
`arm_locals`; the empty chain cannot occur and is mapped to a panic). -/
def ScanArm.check : ScanArm → CheckContext → Env →
    Except CheckFailure (ScanArm × Env)
  | ScanArm.mk regex statements, ctx, env =>
    match Statements.check statements ctx (Env.new_child env) with
    | Except.ok (statements', env') =>
      match env' with
      | _ :: parent => Except.ok (ScanArm.mk regex statements', parent)
      | [] => Except.error CheckFailure.panicked
    | Except.error e => Except.error e

/-- Checking a conditional (`If::check`, checker.rs lines 199 to 221):
check each arm in order. -/
def If.check : If → CheckContext → Env → Except CheckFailure (If × Env)
  | If.mk arms, ctx, env =>
    match IfArms.check arms ctx env with
    | Except.ok (arms', env') => Except.ok (If.mk arms', env')
    | Except.error e => Except.error e

/-- Checking the arms of a conditional in order. -/
def IfArms.check : List IfArm → CheckContext → Env →
    Except CheckFailure (List IfArm × Env)
  | [], _, env => Except.ok ([], env)
  | arm :: rest, ctx, env =>
    match IfArm.check arm ctx env with
    | Except.ok (arm', env') =>
      match IfArms.check rest ctx env' with
      | Except.ok (rest', env'') => Except.ok (arm' :: rest', env'')
      | Except.error e => Except.error e
    | Except.error e => Except.error e

/-- Checking one conditional arm: the guard conditions are checked first
(they never consult the local environment), then the body runs in a fresh
child scope, which is discarded afterwards. -/
def IfArm.check : IfArm → CheckContext → Env →
    Except CheckFailure (IfArm × Env)
  | IfArm.mk conditions statements, ctx, env =>
    match Conditions.check conditions ctx with
    | Except.ok conditions' =>
      match Statements.check statements ctx (Env.new_child env) with
      | Except.ok (statements', env') =>
        match env' with
        | _ :: parent => Except.ok (IfArm.mk conditions' statements', parent)
        | [] => Except.error CheckFailure.panicked
      | Except.error e => Except.error e
    | Except.error e => Except.error e

/-- Checking a for-in statement (`ForIn::check`, checker.rs lines 240 to
261): check the source expression; unless its cardinality is `ZeroOrMore`
or `OneOrMore` fail with `ExpectedListValue` at the loop location;
otherwise bind the loop variable in a fresh child scope, passing the
source result and `false` for mutability, and check the body in that
scope, which is discarded afterwards. -/
def ForIn.check : ForIn → CheckContext → Env →
    Except CheckFailure (ForIn × Env)
  | ForIn.mk var capture statements location, ctx, env =>
    match Expression.check capture ctx env with
    | Except.ok (capture', result) =>
      if result.quantifier ≠ CaptureQuantifier.ZeroOrMore ∧
         result.quantifier ≠ CaptureQuantifier.OneOrMore then
        Except.error (CheckFailure.err (CheckError.ExpectedListValue location))
      else
        match UnscopedVariable.add_check var ctx (Env.new_child env) result false with
        | Except.ok loop_env =>
          match Statements.check statements ctx loop_env with
          | Except.ok (statements', env') =>
            match env' with
            | _ :: parent =>
              Except.ok (ForIn.mk var capture' statements' location, parent)
            | [] => Except.error CheckFailure.panicked
          | Except.error e => Except.error e
        | Except.error e => Except.error e
    | Except.error e => Except.error e
end

/-- Checking a stanza (`Stanza::check`, checker.rs lines 62 to 84): a
fresh root environment of a single empty scope, a checker context built
from the file query, the stanza position and the stanza query; the
full-match capture index is looked up in the file query (an `unwrap`:
absence is a panic); then the statements are checked in order. -/
def Stanza.check (stanza : Stanza) (ctx : Context) (file_query : Query)
    (stanza_index : Nat) : Except CheckFailure Stanza :=
  let check_ctx : CheckContext :=
    { ctx := ctx, file_query := file_query, stanza_index := stanza_index,
      stanza_query := stanza.query }
  match file_query.capture_index_for_name FULL_MATCH with
  | none => Except.error CheckFailure.panicked
  | some full_match_file_capture_index =>
    match Statements.check stanza.statements check_ctx [[]] with
    | Except.ok (statements', _) =>
      Except.ok { stanza with
                  statements := statements'
                  full_match_file_capture_index := full_match_file_capture_index }
    | Except.error e => Except.error e

/-- Checking the stanzas of a file in declaration order, numbering them
from the given index (`enumerate` in `File::check`). -/
def Stanzas.check : List Stanza → Context → Query → Nat →
    Except CheckFailure (List Stanza)
  | [], _, _, _ => Except.ok []
  | stanza :: rest, ctx, file_query, index =>
    match Stanza.check stanza ctx file_query index with
    | Except.ok stanza' =>
      match Stanzas.check rest ctx file_query (index + 1) with
      | Except.ok rest' => Except.ok (stanza' :: rest')
      | Except.error e => Except.error e
    | Except.error e => Except.error e

/-- Checking a file (`File::check`, checker.rs lines 49 to 57): unwrap the
compiled file query (absence is a panic), then check each stanza in
declaration order, short-circuiting on the first error. -/
def File.check (file : File) (ctx : Context) : Except CheckFailure File :=
  match file.query with
  | none => Except.error CheckFailure.panicked
  | some file_query =>
    match Stanzas.check file.stanzas ctx file_query 0 with
    | Except.ok stanzas' => Except.ok { file with stanzas := stanzas' }
    | Except.error e => Except.error e

/-! ## Observations on environments used by the theorems -/

/-- The binding recorded for a name in the scope at a given depth of the
chain (depth 0 is the innermost scope). -/
def lookupAt (env : Env) (j : Nat) (n : String) : Option Binding :=
  match getAt env j with
  | some s => Scope.lookup s n
  | none => none

/-- How a check call may evolve the environment: the chain keeps its
shape, scopes only gain names, and a scope that is hidden behind an inner
declaration of the same name keeps its binding for that name untouched. -/
def EnvFrame (env env' : Env) : Prop :=
  env'.length = env.length ∧
  (∀ j n, (lookupAt env j n).isSome = true → (lookupAt env' j n).isSome = true) ∧
  (∀ j n, (∃ i, i < j ∧ (lookupAt env i n).isSome = true) →
    lookupAt env' j n = lookupAt env j n)

/-- The ambient contract of the file-wide query, for one stanza: every
capture name of the stanza query is present in the file query, and the
cardinality table for the stanza position exists and has one entry per
file capture. -/
def CheckContext.covers (c : CheckContext) : Prop :=
  (∀ name i, c.stanza_query.capture_index_for_name name = some i →
    (c.file_query.capture_index_for_name name).isSome = true) ∧
  (∃ table, c.file_query.capture_quantifiers c.stanza_index = some table ∧
    table.length = c.file_query.capture_names.length)

/-- The ambient contract of a compiled file: the file query is present,
defines the full-match capture, and covers every stanza at its position. -/
def File.covered (file : File) : Prop :=
  match file.query with
  | none => False
  | some fq =>
    (fq.capture_index_for_name FULL_MATCH).isSome = true ∧
    (∀ i stanza, getAt file.stanzas i = some stanza →
      CheckContext.covers
        { ctx := {}, file_query := fq, stanza_index := i, stanza_query := stanza.query })

/-! ## Concrete fixtures for witnesses and counterexamples -/

/-- Example stanza query defining three captures. -/
def exStanzaQuery : Query :=
  { capture_names := ["cap", "opt", "single"], quantifier_tables := [] }

/-- Example file query: the full match plus the three stanza captures,
with one cardinality table for stanza position 0. -/
def exFileQuery : Query :=
  { capture_names := [FULL_MATCH, "cap", "opt", "single"],
    quantifier_tables := [[CaptureQuantifier.One, CaptureQuantifier.ZeroOrMore,
      CaptureQuantifier.ZeroOrOne, CaptureQuantifier.One]] }

/-- Example checker context for stanza position 0. -/
def exCtx : CheckContext :=
  { ctx := {}, file_query := exFileQuery, stanza_index := 0,
    stanza_query := exStanzaQuery }

/-- A reference to the capture compiled with cardinality `ZeroOrMore`. -/
def exCapList : Capture :=
  { name := "cap", location := 7, stanza_capture_index := 0,
    file_capture_index := 0, quantifier := CaptureQuantifier.One }

/-- The list capture reference as annotated by a successful check. -/
def exCapListAnnotated : Capture :=
  { name := "cap", location := 7, stanza_capture_index := 0,
    file_capture_index := 1, quantifier := CaptureQuantifier.ZeroOrMore }

/-- A reference to the capture compiled with cardinality `ZeroOrOne`. -/
def exCapOpt : Capture :=
  { name := "opt", location := 8, stanza_capture_index := 0,
    file_capture_index := 0, quantifier := CaptureQuantifier.One }

/-- A reference to the capture compiled with cardinality `One`. -/
def exCapOne : Capture :=
  { name := "single", location := 9, stanza_capture_index := 0,
    file_capture_index := 0, quantifier := CaptureQuantifier.One }

/-- A loop body consisting of one nested loop over the outer loop
variable `x`: observable only if `x` is bound with a list cardinality. -/
def exNestedBody : List Statement :=
  [Statement.forIn
    (ForIn.mk { name := "y" } (Expression.var (Variable.unscoped { name := "x" }))
      [] 21)]

/-- A stanza with an empty body, used as a leading healthy stanza. -/
def exStanzaOk : Stanza :=
  { query := exStanzaQuery, statements := [], full_match_file_capture_index := 0 }

/-- A duplicate declaration of `z`, used to make a stanza fail. -/
def exDup : Statement :=
  Statement.declareImmutable
    { var := Variable.unscoped { name := "z" }, value := Expression.trueLiteral }

/-- A stanza whose body declares `z` twice in the same scope. -/
def exStanzaBad : Stanza :=
  { query := exStanzaQuery, statements := [exDup, exDup],
    full_match_file_capture_index := 0 }

/-- A file whose second stanza fails while the first is healthy. -/
def exFile : File :=
  { query := some exFileQuery, stanzas := [exStanzaOk, exStanzaBad] }

/-- A scoped variable whose scope expression is the null literal. -/
def exScopedX : ScopedVariable := ScopedVariable.mk Expression.nullLiteral "x"

/-- An environment whose root scope binds `x` immutably. -/
def exEnvX : Env :=
  [[("x", { value := { quantifier := CaptureQuantifier.One }, is_mutable := false })]]

/-- A child scope shadowing `x` mutably at cardinality `One`. -/
def exChildScope : Scope :=
  [("x", { value := { quantifier := CaptureQuantifier.One }, is_mutable := true })]

/-- The same child scope after an assignment records a `ZeroOrMore` value. -/
def exChildScope2 : Scope :=
  [("x", { value := { quantifier := CaptureQuantifier.ZeroOrMore }, is_mutable := true })]

/-- A parent scope binding `x` mutably at cardinality `OneOrMore`. -/
def exParentScope : Scope :=
  [("x", { value := { quantifier := CaptureQuantifier.OneOrMore }, is_mutable := true })]

/-- An assignment of an empty list comprehension to `x`. -/
def exAssignList : Statement :=
  Statement.assign
    { var := Variable.unscoped { name := "x" }, value := Expression.list [] }

/-- A stanza whose body prints the list capture. -/
def exStanzaCap : Stanza :=
  { query := exStanzaQuery,
    statements := [Statement.print { values := [Expression.capture exCapList] }],
    full_match_file_capture_index := 0 }

/-- A single-stanza file satisfying the ambient query contract. -/
def exFileGood : File :=
  { query := some exFileQuery, stanzas := [exStanzaCap] }

/-! ## Lemmas about the environment -/

theorem Env.set_of_get_none (env : Env) (name : String) (value : ExpressionResult)
    (h : Env.get env name = none) :
    Env.set env name value = Except.error VariableError.undefinedVariable := by
  induction env with
  | nil => rfl
  | cons scope rest ih =>
    cases hl : Scope.lookup scope name with
    | some b => simp [Env.get, hl] at h
    | none =>
      simp [Env.get, hl] at h
      simp [Env.set, hl, ih h]

theorem Env.set_of_get_immutable (env : Env) (name : String)
    (value : ExpressionResult) (b : Binding) (h : Env.get env name = some b)
    (hm : b.is_mutable = false) :
    Env.set env name value = Except.error VariableError.cannotAssignImmutableVariable := by
  induction env with
  | nil => simp [Env.get] at h
  | cons scope rest ih =>
    cases hl : Scope.lookup scope name with
    | some b' =>
      simp [Env.get, hl] at h
      subst h
      simp [Env.set, hl, hm]
    | none =>
      simp [Env.get, hl] at h
      simp [Env.set, hl, ih h]

/-! ## Claim C3: capture resolution -/

/-- C3: checking a capture reference fails with `UndefinedSyntaxCapture`
(carrying the resolved name and the capture location) when the stanza
query does not define the name; when it does, and the file query resolves
the name with a cardinality entry for the stanza position, the check
records the stanza-local and file-level indices together with that
cardinality on the node and returns the cardinality. -/
theorem claim_C3 (c : Capture) (ctx : CheckContext) :
    (ctx.stanza_query.capture_index_for_name (ctx.ctx.resolve c.name) = none →
      Capture.check c ctx = Except.error (CheckFailure.err
        (CheckError.UndefinedSyntaxCapture (ctx.ctx.resolve c.name) c.location))) ∧
    (∀ si fi table q,
      ctx.stanza_query.capture_index_for_name (ctx.ctx.resolve c.name) = some si →
      ctx.file_query.capture_index_for_name (ctx.ctx.resolve c.name) = some fi →
      ctx.file_query.capture_quantifiers ctx.stanza_index = some table →
      getAt table fi = some q →
      Capture.check c ctx = Except.ok
        ({ c with stanza_capture_index := si, file_capture_index := fi, quantifier := q },
         { quantifier := q })) := by
  constructor
  · intro h
    simp [Capture.check, h]
  · intro si fi table q h1 h2 h3 h4
    simp [Capture.check, h1, h2, h3, h4]

/-- Witness for C3 at the example fixtures: the list capture resolves to
stanza index 0, file index 1, cardinality `ZeroOrMore`, and an
out-of-stanza name is rejected. -/
theorem claim_C3_witness :
    Capture.check exCapList exCtx = Except.ok
      ({ name := "cap", location := 7, stanza_capture_index := 0,
         file_capture_index := 1, quantifier := CaptureQuantifier.ZeroOrMore },
       { quantifier := CaptureQuantifier.ZeroOrMore }) ∧
    Capture.check { exCapList with name := "missing" } exCtx =
      Except.error (CheckFailure.err
        (CheckError.UndefinedSyntaxCapture "missing" 7)) :=
  ⟨(claim_C3 exCapList exCtx).2 0 1
      [CaptureQuantifier.One, CaptureQuantifier.ZeroOrMore,
       CaptureQuantifier.ZeroOrOne, CaptureQuantifier.One]
      CaptureQuantifier.ZeroOrMore rfl rfl rfl rfl,
   (claim_C3 { exCapList with name := "missing" } exCtx).1 rfl⟩

/-! ## Claim C5: unresolved variable reads succeed -/

/-- C5: reading an unscoped variable that is not declared in any visible
scope succeeds with the default `One` cardinality, and a variable read
never produces an error at check time. -/
theorem claim_C5 (v : UnscopedVariable) (ctx : CheckContext) (env : Env) :
    (Env.get env v.name = none →
      UnscopedVariable.get_check v ctx env =
        Except.ok { quantifier := CaptureQuantifier.One }) ∧
    (∃ result, UnscopedVariable.get_check v ctx env = Except.ok result) := by
  constructor
  · intro h
    simp [UnscopedVariable.get_check, h]
  · exact ⟨_, rfl⟩

/-- Witness for C5: reading the undeclared name `global` in an empty root
environment yields `One`. -/
theorem claim_C5_witness :
    UnscopedVariable.get_check { name := "global" } exCtx [[]] =
      Except.ok { quantifier := CaptureQuantifier.One } :=
  (claim_C5 { name := "global" } exCtx [[]]).1 rfl

/-! ## Claim C6: unscoped variable scoping errors -/

/-- C6: declaring an unscoped variable whose name is already bound in the
innermost scope fails; assigning to a name undeclared in every visible
scope fails; assigning to a name whose found binding is immutable fails;
each failure is a `Variable` check error wrapping the scoping-error kind
and the display form of the name. -/
theorem claim_C6 (v : UnscopedVariable) (ctx : CheckContext)
    (value : ExpressionResult) :
    (∀ scope rest is_mutable b, Scope.lookup scope v.name = some b →
      UnscopedVariable.add_check v ctx (scope :: rest) value is_mutable =
        Except.error (CheckFailure.err (CheckError.Variable
          VariableError.variableAlreadyDefined (display_with v.name ctx.ctx)))) ∧
    (∀ env, Env.get env v.name = none →
      UnscopedVariable.set_check v ctx env value =
        Except.error (CheckFailure.err (CheckError.Variable
          VariableError.undefinedVariable (display_with v.name ctx.ctx)))) ∧
    (∀ env b, Env.get env v.name = some b → b.is_mutable = false →
      UnscopedVariable.set_check v ctx env value =
        Except.error (CheckFailure.err (CheckError.Variable
          VariableError.cannotAssignImmutableVariable (display_with v.name ctx.ctx)))) := by
  refine ⟨?_, ?_, ?_⟩
  · intro scope rest is_mutable b h
    simp [UnscopedVariable.add_check, Env.add, h]
  · intro env h
    simp [UnscopedVariable.set_check, Env.set_of_get_none env v.name value h]
  · intro env b h hm
    simp [UnscopedVariable.set_check, Env.set_of_get_immutable env v.name value b h hm]

/-- Witness for C6: in a root scope binding `a` immutably, re-declaring
`a` fails as a duplicate, assigning to the undeclared `b` fails, and
assigning to `a` fails as immutable. -/
theorem claim_C6_witness :
    (UnscopedVariable.add_check { name := "a" } exCtx
      [[("a", { value := { quantifier := CaptureQuantifier.One }, is_mutable := false })]]
      { quantifier := CaptureQuantifier.One } true =
      Except.error (CheckFailure.err (CheckError.Variable
        VariableError.variableAlreadyDefined "a"))) ∧
    (UnscopedVariable.set_check { name := "b" } exCtx
      [[("a", { value := { quantifier := CaptureQuantifier.One }, is_mutable := false })]]
      { quantifier := CaptureQuantifier.One } =
      Except.error (CheckFailure.err (CheckError.Variable
        VariableError.undefinedVariable "b"))) ∧
    (UnscopedVariable.set_check { name := "a" } exCtx
      [[("a", { value := { quantifier := CaptureQuantifier.One }, is_mutable := false })]]
      { quantifier := CaptureQuantifier.One } =
      Except.error (CheckFailure.err (CheckError.Variable
        VariableError.cannotAssignImmutableVariable "a"))) :=
  ⟨(claim_C6 { name := "a" } exCtx { quantifier := CaptureQuantifier.One }).1
      [("a", { value := { quantifier := CaptureQuantifier.One }, is_mutable := false })]
      [] true { value := { quantifier := CaptureQuantifier.One }, is_mutable := false } rfl,
   (claim_C6 { name := "b" } exCtx { quantifier := CaptureQuantifier.One }).2.1
      [[("a", { value := { quantifier := CaptureQuantifier.One }, is_mutable := false })]] rfl,
   (claim_C6 { name := "a" } exCtx { quantifier := CaptureQuantifier.One }).2.2
      [[("a", { value := { quantifier := CaptureQuantifier.One }, is_mutable := false })]]
      { value := { quantifier := CaptureQuantifier.One }, is_mutable := false } rfl rfl⟩

/-! ## Claim C1: the for-in cardinality gate -/

/-- C1: for a for-in whose source is a capture expression that resolves
with cardinality `r`, the check proceeds to bind the loop variable and
check the body exactly when `r` is `ZeroOrMore` or `OneOrMore`; for `One`
or `ZeroOrOne` it fails with `ExpectedListValue` at the loop location. -/
theorem claim_C1 (var : UnscopedVariable) (c : Capture) (stmts : List Statement)
    (loc : Location) (ctx : CheckContext) (env : Env) (c' : Capture)
    (r : ExpressionResult) (h : Capture.check c ctx = Except.ok (c', r)) :
    ((r.quantifier = CaptureQuantifier.ZeroOrMore ∨
      r.quantifier = CaptureQuantifier.OneOrMore) →
      ForIn.check (ForIn.mk var (Expression.capture c) stmts loc) ctx env =
        (match UnscopedVariable.add_check var ctx (Env.new_child env) r false with
         | Except.ok loop_env =>
           (match Statements.check stmts ctx loop_env with
            | Except.ok (stmts', env') =>
              (match env' with
               | _ :: parent =>
                 Except.ok (ForIn.mk var (Expression.capture c') stmts' loc, parent)
               | [] => Except.error CheckFailure.panicked)
            | Except.error e => Except.error e)
         | Except.error e => Except.error e)) ∧
    ((r.quantifier = CaptureQuantifier.One ∨
      r.quantifier = CaptureQuantifier.ZeroOrOne) →
      ForIn.check (ForIn.mk var (Expression.capture c) stmts loc) ctx env =
        Except.error (CheckFailure.err (CheckError.ExpectedListValue loc))) := by
  have hexp : Expression.check (Expression.capture c) ctx env =
      Except.ok (Expression.capture c', r) := by
    simp [Expression.check, h]
  constructor
  · rintro (hq | hq) <;> simp [ForIn.check, hexp, hq]
  · rintro (hq | hq) <;> simp [ForIn.check, hexp, hq]

/-- Witness for C1: looping over the `ZeroOrMore` capture succeeds, and
looping over the `One` capture fails with `ExpectedListValue` at the loop
location 4. -/
theorem claim_C1_witness :
    ForIn.check (ForIn.mk { name := "x" } (Expression.capture exCapList) [] 3)
      exCtx [[]] =
      Except.ok (ForIn.mk { name := "x" }
        (Expression.capture exCapListAnnotated) [] 3, [[]]) ∧
    ForIn.check (ForIn.mk { name := "x" } (Expression.capture exCapOne) [] 4)
      exCtx [[]] =
      Except.error (CheckFailure.err (CheckError.ExpectedListValue 4)) :=
  ⟨((claim_C1 { name := "x" } exCapList [] 3 exCtx [[]] _ _ rfl).1
      (Or.inl rfl)).trans rfl,
   (claim_C1 { name := "x" } exCapOne [] 4 exCtx [[]] _ _ rfl).2 (Or.inl rfl)⟩

/-! ## Claim C4: what the for-in binds

The code binds the loop variable with the SOURCE result (the list
cardinality `ZeroOrMore` or `OneOrMore`) and a literal `false` mutability
(checker.rs line 255), not with an element cardinality of `One`. -/

/-- Counterexample to C4 as stated: for the loop over the `ZeroOrMore`
capture whose body loops again over the loop variable `x`, the code
succeeds; but checking the same body in the child scope the claim
prescribes, with `x` bound at cardinality `One`, fails with
`ExpectedListValue` — so the body is not checked with `x` bound at `One`. -/
theorem claim_C4_counterexample :
    (ForIn.check (ForIn.mk { name := "x" } (Expression.capture exCapList)
        exNestedBody 20) exCtx [[]]).isOk = true ∧
    Statements.check exNestedBody exCtx
      [[("x", { value := { quantifier := CaptureQuantifier.One }, is_mutable := false })], []] =
      Except.error (CheckFailure.err (CheckError.ExpectedListValue 21)) :=
  ⟨rfl, rfl⟩

/-- C4 as amended: for a for-in whose source check passes the cardinality
gate with result `r`, the loop variable is bound in the freshly opened
child scope with the source cardinality `r` itself, as an immutable
binding, and the loop body is then checked in that child scope, which is
discarded afterwards. -/
theorem claim_C4 (var : UnscopedVariable) (capture : Expression)
    (stmts : List Statement) (loc : Location) (ctx : CheckContext) (env : Env)
    (capture' : Expression) (r : ExpressionResult)
    (h : Expression.check capture ctx env = Except.ok (capture', r))
    (hq : r.quantifier = CaptureQuantifier.ZeroOrMore ∨
      r.quantifier = CaptureQuantifier.OneOrMore) :
    ForIn.check (ForIn.mk var capture stmts loc) ctx env =
      (match Statements.check stmts ctx
          ([(var.name, { value := r, is_mutable := false })] :: env) with
       | Except.ok (stmts', env') =>
         (match env' with
          | _ :: parent => Except.ok (ForIn.mk var capture' stmts' loc, parent)
          | [] => Except.error CheckFailure.panicked)
       | Except.error e => Except.error e) := by
  rcases hq with hq | hq <;>
    simp [ForIn.check, h, hq, UnscopedVariable.add_check, Env.new_child, Env.add,
      Scope.lookup]

/-- Witness for the amended C4: the loop over the `ZeroOrMore` capture
with the nested-loop body checks successfully, because the loop variable
is visible in the body with the list cardinality of the source. -/
theorem claim_C4_witness :
    ForIn.check (ForIn.mk { name := "x" } (Expression.capture exCapList)
      exNestedBody 20) exCtx [[]] =
      Except.ok (ForIn.mk { name := "x" }
        (Expression.capture exCapListAnnotated)
        exNestedBody 20, [[]]) :=
  (claim_C4 { name := "x" } (Expression.capture exCapList) exNestedBody 20
    exCtx [[]] _ _ rfl (Or.inl rfl)).trans rfl

/-! ## Claim C2: the conditional pattern-arm cardinality gate -/

theorem checkCaptures_cons (ctx : CheckContext) (c : Capture)
    (rest : List Capture) (c' : Capture) (r : ExpressionResult)
    (hc : Capture.check c ctx = Except.ok (c', r)) :
    Condition.checkCaptures (c :: rest) ctx =
      (if r.quantifier ≠ CaptureQuantifier.ZeroOrOne then
        Except.error (CheckFailure.err (CheckError.ExpectedOptionalValue c.location))
      else
        match Condition.checkCaptures rest ctx with
        | Except.ok rest' => Except.ok (c' :: rest')
        | Except.error e => Except.error e) := by
  simp [Condition.checkCaptures, hc]

theorem checkCaptures_ok_iff (ctx : CheckContext) :
    ∀ cs : List Capture,
    (∀ c ∈ cs, ∃ c' r, Capture.check c ctx = Except.ok (c', r)) →
    ((Condition.checkCaptures cs ctx).isOk = true ↔
      ∀ c ∈ cs, ∀ c' r, Capture.check c ctx = Except.ok (c', r) →
        r.quantifier = CaptureQuantifier.ZeroOrOne) := by
  intro cs
  induction cs with
  | nil =>
    intro _
    simp [Condition.checkCaptures, Except.isOk, Except.toBool]
  | cons c rest ih =>
    intro h
    obtain ⟨c', r, hc⟩ := h c (List.mem_cons_self c rest)
    have hrest := ih (fun b hb => h b (List.mem_cons_of_mem c hb))
    rw [checkCaptures_cons ctx c rest c' r hc]
    by_cases hq : r.quantifier = CaptureQuantifier.ZeroOrOne
    · rw [if_neg (by simp [hq])]
      cases hr : Condition.checkCaptures rest ctx with
      | ok rest' =>
        rw [hr] at hrest
        refine ⟨fun _ => ?_, fun _ => rfl⟩
        intro b hb b' rb hbc
        rcases List.mem_cons.mp hb with hb | hb
        · subst hb
          cases Except.ok.inj (hc.symm.trans hbc)
          exact hq
        · exact (hrest.mp rfl) b hb b' rb hbc
      | error e =>
        rw [hr] at hrest
        constructor
        · intro hfalse
          exact Bool.noConfusion hfalse
        · intro hall
          exact Bool.noConfusion (hrest.mpr
            (fun b hb b' rb hbc => hall b (List.mem_cons_of_mem c hb) b' rb hbc))
    · rw [if_pos (by simp [hq])]
      constructor
      · intro hfalse
        exact Bool.noConfusion hfalse
      · intro hall
        exact absurd (hall c (List.mem_cons_self c rest) c' r hc) hq

theorem checkCaptures_first_bad (ctx : CheckContext) :
    ∀ pre : List Capture, ∀ (c : Capture) (post : List Capture)
      (c' : Capture) (r : ExpressionResult),
    (∀ b ∈ pre, ∃ b' rb, Capture.check b ctx = Except.ok (b', rb) ∧
      rb.quantifier = CaptureQuantifier.ZeroOrOne) →
    Capture.check c ctx = Except.ok (c', r) →
    r.quantifier ≠ CaptureQuantifier.ZeroOrOne →
    Condition.checkCaptures (pre ++ c :: post) ctx =
      Except.error (CheckFailure.err (CheckError.ExpectedOptionalValue c.location)) := by
  intro pre
  induction pre with
  | nil =>
    intro c post c' r _ hc hq
    rw [List.nil_append, checkCaptures_cons ctx c post c' r hc]
    simp [hq]
  | cons b rest ih =>
    intro c post c' r hpre hc hq
    obtain ⟨b', rb, hb, hbq⟩ := hpre b (List.mem_cons_self b rest)
    rw [List.cons_append, checkCaptures_cons ctx b (rest ++ c :: post) b' rb hb]
    rw [ih c post c' r (fun x hx => hpre x (List.mem_cons_of_mem b hx)) hc hq]
    simp [hbq]

/-- C2: for a conditional pattern-arm over captures that all resolve,
checking succeeds exactly when every capture has cardinality `ZeroOrOne`;
the first capture with any other cardinality makes the check fail with
`ExpectedOptionalValue` at that capture.  Both the presence form and the
absence form behave identically. -/
theorem claim_C2 (ctx : CheckContext) (cs : List Capture)
    (h : ∀ c ∈ cs, ∃ c' r, Capture.check c ctx = Except.ok (c', r)) :
    ((Condition.check (Condition.Some cs) ctx).isOk = true ↔
      ∀ c ∈ cs, ∀ c' r, Capture.check c ctx = Except.ok (c', r) →
        r.quantifier = CaptureQuantifier.ZeroOrOne) ∧
    ((Condition.check (Condition.None cs) ctx).isOk = true ↔
      ∀ c ∈ cs, ∀ c' r, Capture.check c ctx = Except.ok (c', r) →
        r.quantifier = CaptureQuantifier.ZeroOrOne) ∧
    (∀ (pre : List Capture) (c : Capture) (post : List Capture)
       (c' : Capture) (r : ExpressionResult),
      cs = pre ++ c :: post →
      (∀ b ∈ pre, ∃ b' rb, Capture.check b ctx = Except.ok (b', rb) ∧
        rb.quantifier = CaptureQuantifier.ZeroOrOne) →
      Capture.check c ctx = Except.ok (c', r) →
      r.quantifier ≠ CaptureQuantifier.ZeroOrOne →
      Condition.check (Condition.Some cs) ctx =
        Except.error (CheckFailure.err (CheckError.ExpectedOptionalValue c.location)) ∧
      Condition.check (Condition.None cs) ctx =
        Except.error (CheckFailure.err (CheckError.ExpectedOptionalValue c.location))) := by
  have hiff := checkCaptures_ok_iff ctx cs h
  refine ⟨?_, ?_, ?_⟩
  · rw [← hiff]
    cases hr : Condition.checkCaptures cs ctx <;>
      simp [Condition.check, hr, Except.isOk, Except.toBool]
  · rw [← hiff]
    cases hr : Condition.checkCaptures cs ctx <;>
      simp [Condition.check, hr, Except.isOk, Except.toBool]
  · intro pre c post c' r hcs hpre hc hq
    subst hcs
    have hbad := checkCaptures_first_bad ctx pre c post c' r hpre hc hq
    exact ⟨by simp [Condition.check, hbad], by simp [Condition.check, hbad]⟩

/-- Witness for C2: a pattern-arm over the `ZeroOrOne` capture checks
successfully, and an arm listing the `ZeroOrOne` capture and then the
`ZeroOrMore` capture fails with `ExpectedOptionalValue` at location 7 of
the second capture. -/
theorem claim_C2_witness :
    (Condition.check (Condition.Some [exCapOpt]) exCtx).isOk = true ∧
    Condition.check (Condition.Some [exCapOpt, exCapList]) exCtx =
      Except.error (CheckFailure.err (CheckError.ExpectedOptionalValue 7)) := by
  have hopt : Capture.check exCapOpt exCtx =
      Except.ok (⟨"opt", 8, 1, 2, CaptureQuantifier.ZeroOrOne⟩,
        ⟨CaptureQuantifier.ZeroOrOne⟩) := rfl
  constructor
  · refine (claim_C2 exCtx [exCapOpt] ?_).1.mpr ?_
    · intro c hcmem
      rw [List.mem_singleton] at hcmem
      subst hcmem
      exact ⟨_, _, hopt⟩
    · intro c hcmem c' r hr
      rw [List.mem_singleton] at hcmem
      subst hcmem
      cases Except.ok.inj (hopt.symm.trans hr)
      rfl
  · refine ((claim_C2 exCtx [exCapOpt, exCapList] ?_).2.2
      [exCapOpt] exCapList [] _ _ rfl ?_ rfl ?_).1
    · intro c hcmem
      rcases List.mem_cons.mp hcmem with h1 | h1
      · subst h1
        exact ⟨_, _, hopt⟩
      · rw [List.mem_singleton] at h1
        subst h1
        exact ⟨_, _, rfl⟩
    · intro b hb
      rw [List.mem_singleton] at hb
      subst hb
      exact ⟨_, _, hopt, rfl⟩
    · decide

/-! ## Claim C8: walk order and fail-fast propagation -/

theorem statements_check_append_error (ctx : CheckContext) :
    ∀ (pre : List Statement) (bad : Statement) (post : List Statement)
      (env : Env) (pre' : List Statement) (env' : Env),
    Statements.check pre ctx env = Except.ok (pre', env') →
    ∀ e, Statement.check bad ctx env' = Except.error e →
    Statements.check (pre ++ bad :: post) ctx env = Except.error e := by
  intro pre
  induction pre with
  | nil =>
    intro bad post env pre' env' hpre e hbad
    simp only [Statements.check] at hpre
    obtain ⟨h1, h2⟩ := Prod.mk.inj (Except.ok.inj hpre)
    subst h2
    simp only [List.nil_append, Statements.check, hbad]
  | cons s rest ih =>
    intro bad post env pre' env' hpre e hbad
    cases hs : Statement.check s ctx env with
    | error e2 =>
      simp only [Statements.check, hs] at hpre
      exact Except.noConfusion hpre
    | ok out =>
      obtain ⟨s', env1⟩ := out
      cases hrest : Statements.check rest ctx env1 with
      | error e2 =>
        simp only [Statements.check, hs, hrest] at hpre
        exact Except.noConfusion hpre
      | ok out2 =>
        obtain ⟨rest', env2⟩ := out2
        simp only [Statements.check, hs, hrest, Except.ok.injEq, Prod.mk.injEq] at hpre
        obtain ⟨h1, h2⟩ := hpre
        subst h2
        simp only [List.cons_append, Statements.check, hs, List.append_eq]
        rw [ih bad post env1 rest' env2 hrest e hbad]

theorem stanzas_check_append_error (ctx : Context) (fq : Query) :
    ∀ (pre : List Stanza) (bad : Stanza) (post : List Stanza) (i : Nat)
      (pre' : List Stanza),
    Stanzas.check pre ctx fq i = Except.ok pre' →
    ∀ e, Stanza.check bad ctx fq (i + pre.length) = Except.error e →
    Stanzas.check (pre ++ bad :: post) ctx fq i = Except.error e := by
  intro pre
  induction pre with
  | nil =>
    intro bad post i pre' _ e hbad
    rw [List.length_nil, Nat.add_zero] at hbad
    simp only [List.nil_append, Stanzas.check, hbad]
  | cons s rest ih =>
    intro bad post i pre' hpre e hbad
    cases hs : Stanza.check s ctx fq i with
    | error e2 =>
      simp only [Stanzas.check, hs] at hpre
      exact Except.noConfusion hpre
    | ok s' =>
      cases hrest : Stanzas.check rest ctx fq (i + 1) with
      | error e2 =>
        simp only [Stanzas.check, hs, hrest] at hpre
        exact Except.noConfusion hpre
      | ok rest' =>
        have harith : i + (s :: rest).length = (i + 1) + rest.length := by
          simp only [List.length_cons]
          omega
        rw [harith] at hbad
        simp only [List.cons_append, Stanzas.check, hs, List.append_eq]
        rw [ih bad post (i + 1) rest' hrest e hbad]

/-- C8: checking walks stanzas in declaration order, each stanza starting
from a fresh root environment of one empty scope; within a stanza the
statements are walked in textual order; the first error anywhere is
returned immediately, and no later stanza or statement is checked. -/
theorem claim_C8 (ctx : Context) (fq : Query) :
    (∀ (stanza : Stanza) (i : Nat),
      Stanza.check stanza ctx fq i =
        (match fq.capture_index_for_name FULL_MATCH with
         | none => Except.error CheckFailure.panicked
         | some idx =>
           (match Statements.check stanza.statements
               { ctx := ctx, file_query := fq, stanza_index := i,
                 stanza_query := stanza.query } [[]] with
            | Except.ok (statements', _) =>
              Except.ok { stanza with
                          statements := statements'
                          full_match_file_capture_index := idx }
            | Except.error e => Except.error e))) ∧
    (∀ (cctx : CheckContext) (pre : List Statement) (bad : Statement)
       (post : List Statement) (env : Env) (pre' : List Statement) (env' : Env),
      Statements.check pre cctx env = Except.ok (pre', env') →
      ∀ e, Statement.check bad cctx env' = Except.error e →
      Statements.check (pre ++ bad :: post) cctx env = Except.error e) ∧
    (∀ (file : File) (pre : List Stanza) (bad : Stanza) (post : List Stanza)
       (pre' : List Stanza),
      file.query = some fq →
      file.stanzas = pre ++ bad :: post →
      Stanzas.check pre ctx fq 0 = Except.ok pre' →
      ∀ e, Stanza.check bad ctx fq pre.length = Except.error e →
      File.check file ctx = Except.error e) := by
  refine ⟨?_, ?_, ?_⟩
  · intro stanza i
    rfl
  · intro cctx pre bad post env pre' env' hpre e hbad
    exact statements_check_append_error cctx pre bad post env pre' env' hpre e hbad
  · intro file pre bad post pre' hq hstanzas hpre e hbad
    have hzero : Stanza.check bad ctx fq (0 + pre.length) = Except.error e := by
      rw [Nat.zero_add]
      exact hbad
    have hall := stanzas_check_append_error ctx fq pre bad post 0 pre' hpre e hzero
    simp only [File.check, hq, hstanzas, hall]

/-- Witness for C8: in the example file the first stanza is healthy and
the second declares `z` twice, so checking the whole file returns exactly
the duplicate-declaration error of the second stanza. -/
theorem claim_C8_witness :
    File.check exFile {} =
      Except.error (CheckFailure.err (CheckError.Variable
        VariableError.variableAlreadyDefined "z")) :=
  (claim_C8 {} exFileQuery).2.2 exFile [exStanzaOk] exStanzaBad [] _ rfl rfl rfl _ rfl

/-! ## Claim C10: scoped variables at binding sites -/

theorem Capture.check_no_variable_error (c : Capture) (ctx : CheckContext)
    (ve : VariableError) (s : String) :
    Capture.check c ctx ≠ Except.error (CheckFailure.err (CheckError.Variable ve s)) := by
  intro h
  unfold Capture.check at h
  cases h1 : ctx.stanza_query.capture_index_for_name (ctx.ctx.resolve c.name) with
  | none => simp [h1] at h
  | some si =>
    cases h2 : ctx.file_query.capture_index_for_name (ctx.ctx.resolve c.name) with
    | none => simp [h1, h2] at h
    | some fi =>
      cases h3 : ctx.file_query.capture_quantifiers ctx.stanza_index with
      | none => simp [h1, h2, h3] at h
      | some table =>
        cases h4 : getAt table fi with
        | none => simp [h1, h2, h3, h4] at h
        | some q => simp [h1, h2, h3, h4] at h

theorem expr_no_variable_error :
    ∀ (e : Expression) (ctx : CheckContext) (env : Env),
    ∀ (ve : VariableError) (s : String),
    Expression.check e ctx env ≠
      Except.error (CheckFailure.err (CheckError.Variable ve s)) := by
  apply Expression.check.induct
    (fun e ctx env => ∀ ve s,
      Expression.check e ctx env ≠
        Except.error (CheckFailure.err (CheckError.Variable ve s)))
    (fun v ctx env => ∀ ve s,
      Variable.get_check v ctx env ≠
        Except.error (CheckFailure.err (CheckError.Variable ve s)))
    (fun sv ctx env => ∀ ve s,
      ScopedVariable.get_check sv ctx env ≠
        Except.error (CheckFailure.err (CheckError.Variable ve s)))
    (fun es ctx env => ∀ ve s,
      Expressions.check es ctx env ≠
        Except.error (CheckFailure.err (CheckError.Variable ve s)))
  all_goals
    first
    | (intro ctx env ve s h
       simp [Expression.check] at h)
    | (intros
       intro h
       simp_all [Expression.check, Expressions.check, Variable.get_check,
         ScopedVariable.get_check, UnscopedVariable.get_check,
         Capture.check_no_variable_error])

/-- C10: a scoped variable at any binding site only checks its scope
sub-expression: declaration and assignment ignore the value cardinality
and the mutability flag, leave the environment unchanged on success,
propagate only errors of the scope expression, and never produce a
`Variable` scoping error in any environment; a read likewise checks only
the scope and always reports cardinality `One`. -/
theorem claim_C10 (sv : ScopedVariable) (ctx : CheckContext) (env : Env) :
    (∀ v1 m1 v2 m2, ScopedVariable.add_check sv ctx env v1 m1 =
      ScopedVariable.add_check sv ctx env v2 m2) ∧
    (∀ v1 v2, ScopedVariable.set_check sv ctx env v1 =
      ScopedVariable.set_check sv ctx env v2) ∧
    (∀ value m out, ScopedVariable.add_check sv ctx env value m = Except.ok out →
      out.2 = env) ∧
    (∀ value out, ScopedVariable.set_check sv ctx env value = Except.ok out →
      out.2 = env) ∧
    (∀ value m e, ScopedVariable.add_check sv ctx env value m = Except.error e →
      Expression.check sv.scope ctx env = Except.error e) ∧
    (∀ value m ve s, ScopedVariable.add_check sv ctx env value m ≠
      Except.error (CheckFailure.err (CheckError.Variable ve s))) ∧
    (∀ value ve s, ScopedVariable.set_check sv ctx env value ≠
      Except.error (CheckFailure.err (CheckError.Variable ve s))) ∧
    (∀ out, ScopedVariable.get_check sv ctx env = Except.ok out →
      out.2 = { quantifier := CaptureQuantifier.One }) ∧
    (∀ ve s, ScopedVariable.get_check sv ctx env ≠
      Except.error (CheckFailure.err (CheckError.Variable ve s))) := by
  obtain ⟨scope, name⟩ := sv
  have hadd_err : ∀ value m e,
      ScopedVariable.add_check (ScopedVariable.mk scope name) ctx env value m =
        Except.error e →
      Expression.check scope ctx env = Except.error e := by
    intro value m e h
    cases hs : Expression.check scope ctx env with
    | ok out =>
      obtain ⟨sc', r⟩ := out
      simp [ScopedVariable.add_check, hs] at h
    | error e0 =>
      simp only [ScopedVariable.add_check, hs, Except.error.injEq] at h
      rw [h]
  have hset_err : ∀ value e,
      ScopedVariable.set_check (ScopedVariable.mk scope name) ctx env value =
        Except.error e →
      Expression.check scope ctx env = Except.error e := by
    intro value e h
    cases hs : Expression.check scope ctx env with
    | ok out =>
      obtain ⟨sc', r⟩ := out
      simp [ScopedVariable.set_check, hs] at h
    | error e0 =>
      simp only [ScopedVariable.set_check, hs, Except.error.injEq] at h
      rw [h]
  have hget_err : ∀ e,
      ScopedVariable.get_check (ScopedVariable.mk scope name) ctx env =
        Except.error e →
      Expression.check scope ctx env = Except.error e := by
    intro e h
    cases hs : Expression.check scope ctx env with
    | ok out =>
      obtain ⟨sc', r⟩ := out
      simp [ScopedVariable.get_check, hs] at h
    | error e0 =>
      simp only [ScopedVariable.get_check, hs, Except.error.injEq] at h
      rw [h]
  refine ⟨fun v1 m1 v2 m2 => rfl, fun v1 v2 => rfl, ?_, ?_, hadd_err, ?_, ?_, ?_, ?_⟩
  · intro value m out h
    cases hs : Expression.check scope ctx env with
    | ok o =>
      obtain ⟨sc', r⟩ := o
      simp only [ScopedVariable.add_check, hs, Except.ok.injEq] at h
      rw [← h]
    | error e0 =>
      simp [ScopedVariable.add_check, hs] at h
  · intro value out h
    cases hs : Expression.check scope ctx env with
    | ok o =>
      obtain ⟨sc', r⟩ := o
      simp only [ScopedVariable.set_check, hs, Except.ok.injEq] at h
      rw [← h]
    | error e0 =>
      simp [ScopedVariable.set_check, hs] at h
  · intro value m ve s h
    exact expr_no_variable_error scope ctx env ve s (hadd_err value m _ h)
  · intro value ve s h
    exact expr_no_variable_error scope ctx env ve s (hset_err value _ h)
  · intro out h
    cases hs : Expression.check scope ctx env with
    | ok o =>
      obtain ⟨sc', r⟩ := o
      simp only [ScopedVariable.get_check, hs, Except.ok.injEq] at h
      rw [← h]
    | error e0 =>
      simp [ScopedVariable.get_check, hs] at h
  · intro ve s h
    exact expr_no_variable_error scope ctx env ve s (hget_err _ h)

/-- Witness for C10: declaring the scoped variable in an environment that
already binds the name `x` ignores value and mutability, does not fail as
a duplicate, and leaves the environment unchanged. -/
theorem claim_C10_witness :
    (ScopedVariable.add_check exScopedX exCtx exEnvX
      { quantifier := CaptureQuantifier.One } false =
     ScopedVariable.add_check exScopedX exCtx exEnvX
      { quantifier := CaptureQuantifier.OneOrMore } true) ∧
    ((exScopedX, exEnvX) : ScopedVariable × Env).2 = exEnvX ∧
    ScopedVariable.add_check exScopedX exCtx exEnvX
      { quantifier := CaptureQuantifier.One } false ≠
      Except.error (CheckFailure.err (CheckError.Variable
        VariableError.variableAlreadyDefined "x")) :=
  ⟨(claim_C10 exScopedX exCtx exEnvX).1 _ _ _ _,
   (claim_C10 exScopedX exCtx exEnvX).2.2.1
     { quantifier := CaptureQuantifier.One } false (exScopedX, exEnvX) rfl,
   (claim_C10 exScopedX exCtx exEnvX).2.2.2.2.2.1 _ _ _ _⟩

/-! ## The frame toolbox for claim C7 -/

theorem EnvFrame_refl (env : Env) : EnvFrame env env :=
  ⟨rfl, fun _ _ h => h, fun _ _ _ => rfl⟩

theorem EnvFrame_trans {a b c : Env} (h1 : EnvFrame a b) (h2 : EnvFrame b c) :
    EnvFrame a c := by
  refine ⟨h2.1.trans h1.1, fun j n h => h2.2.1 j n (h1.2.1 j n h), ?_⟩
  rintro j n ⟨i, hi, hh⟩
  exact (h2.2.2 j n ⟨i, hi, h1.2.1 i n hh⟩).trans (h1.2.2 j n ⟨i, hi, hh⟩)

theorem Scope.lookup_update_other (s : Scope) (name n : String)
    (v : ExpressionResult) (hne : n ≠ name) :
    Scope.lookup (Scope.update s name v) n = Scope.lookup s n := by
  induction s with
  | nil => rfl
  | cons p rest ih =>
    obtain ⟨m, b⟩ := p
    simp only [Scope.update]
    by_cases hm : m = name
    · rw [if_pos hm]
      have hmn : ¬ m = n := fun h => hne (h.symm.trans hm)
      simp only [Scope.lookup, if_neg hmn]
    · rw [if_neg hm]
      simp only [Scope.lookup]
      by_cases hmn : m = n
      · rw [if_pos hmn, if_pos hmn]
      · rw [if_neg hmn, if_neg hmn]
        exact ih

theorem Scope.lookup_update_self (s : Scope) (name : String)
    (v : ExpressionResult) (b : Binding) (h : Scope.lookup s name = some b) :
    Scope.lookup (Scope.update s name v) name = some { b with value := v } := by
  induction s with
  | nil => simp [Scope.lookup] at h
  | cons p rest ih =>
    obtain ⟨m, b'⟩ := p
    simp only [Scope.update]
    by_cases hm : m = name
    · rw [if_pos hm]
      simp only [Scope.lookup, if_pos hm] at h ⊢
      rw [Option.some.inj h]
    · rw [if_neg hm]
      simp only [Scope.lookup, if_neg hm] at h ⊢
      exact ih h

theorem Env.set_charact (name : String) (v : ExpressionResult) :
    ∀ (env env' : Env), Env.set env name v = Except.ok env' →
    env'.length = env.length ∧
    (∀ j n', n' ≠ name → lookupAt env' j n' = lookupAt env j n') ∧
    ∃ k b, lookupAt env k name = some b ∧ b.is_mutable = true ∧
      (∀ i, i < k → lookupAt env i name = none) ∧
      lookupAt env' k name = some { b with value := v } ∧
      (∀ j, j ≠ k → lookupAt env' j name = lookupAt env j name) := by
  intro env
  induction env with
  | nil =>
    intro env' h
    simp [Env.set] at h
  | cons scope rest ih =>
    intro env' h
    cases hl : Scope.lookup scope name with
    | some b =>
      cases hmu : b.is_mutable with
      | false => simp [Env.set, hl, hmu] at h
      | true =>
        simp only [Env.set, hl, hmu, if_true, Except.ok.injEq] at h
        subst h
        refine ⟨rfl, ?_, 0, b, hl, hmu, ?_, ?_, ?_⟩
        · intro j n' hne
          cases j with
          | zero => exact Scope.lookup_update_other scope name n' v hne
          | succ j => rfl
        · intro i hi
          exact absurd hi (Nat.not_lt_zero i)
        · exact Scope.lookup_update_self scope name v b hl
        · intro j hj
          cases j with
          | zero => exact absurd rfl hj
          | succ j => rfl
    | none =>
      cases hrest : Env.set rest name v with
      | error e =>
        simp only [Env.set, hl, hrest] at h
        exact Except.noConfusion h
      | ok rest' =>
        simp only [Env.set, hl, hrest, Except.ok.injEq] at h
        subst h
        obtain ⟨hlen, hother, k, b, hk, hmut, hfirst, hupd, hsame⟩ := ih rest' hrest
        refine ⟨by simp [hlen], ?_, k + 1, b, hk, hmut, ?_, hupd, ?_⟩
        · intro j n' hne
          cases j with
          | zero => rfl
          | succ j => exact hother j n' hne
        · intro i hi
          cases i with
          | zero => exact hl
          | succ i => exact hfirst i (Nat.lt_of_succ_lt_succ hi)
        · intro j hj
          cases j with
          | zero => rfl
          | succ j => exact hsame j (fun hh => hj (by rw [hh]))

theorem EnvFrame_set (env env' : Env) (name : String) (v : ExpressionResult)
    (h : Env.set env name v = Except.ok env') : EnvFrame env env' := by
  obtain ⟨hlen, hother, k, b, hk, hmut, hfirst, hupd, hsame⟩ :=
    Env.set_charact name v env env' h
  refine ⟨hlen, ?_, ?_⟩
  · intro j n hh
    by_cases hn : n = name
    · subst hn
      by_cases hj : j = k
      · subst hj
        rw [hupd]
        rfl
      · rw [hsame j hj]
        exact hh
    · rw [hother j n hn]
      exact hh
  · rintro j n ⟨i, hi, hh⟩
    by_cases hn : n = name
    · subst hn
      have hjk : ¬ j = k := by
        intro hjk
        subst hjk
        rw [hfirst i hi] at hh
        exact Bool.noConfusion hh
      exact hsame j hjk
    · exact hother j n hn

theorem EnvFrame_add (env env' : Env) (name : String) (v : ExpressionResult)
    (m : Bool) (h : Env.add env name v m = Except.ok env') : EnvFrame env env' := by
  cases env with
  | nil => simp [Env.add] at h
  | cons scope rest =>
    cases hl : Scope.lookup scope name with
    | some b => simp [Env.add, hl] at h
    | none =>
      simp only [Env.add, hl, Except.ok.injEq] at h
      subst h
      refine ⟨rfl, ?_, ?_⟩
      · intro j n hh
        cases j with
        | zero =>
          show (Scope.lookup ((name, ⟨v, m⟩) :: scope) n).isSome = true
          simp only [Scope.lookup]
          by_cases hn : name = n
          · rw [if_pos hn]
            rfl
          · rw [if_neg hn]
            exact hh
        | succ j => exact hh
      · rintro j n ⟨i, hi, hh⟩
        cases j with
        | zero => exact absurd hi (Nat.not_lt_zero i)
        | succ j => rfl

theorem EnvFrame_pop (s s' : Scope) (env env₂ : Env)
    (h : EnvFrame (s :: env) (s' :: env₂)) : EnvFrame env env₂ := by
  obtain ⟨hlen, hmono, hpres⟩ := h
  refine ⟨by simpa using hlen, ?_, ?_⟩
  · intro j n hh
    exact hmono (j + 1) n hh
  · rintro j n ⟨i, hi, hh⟩
    exact hpres (j + 1) n ⟨i + 1, Nat.succ_lt_succ hi, hh⟩

theorem EnvFrame_unscoped_add_check (v : UnscopedVariable) (ctx : CheckContext)
    (env : Env) (value : ExpressionResult) (m : Bool) (env' : Env)
    (h : UnscopedVariable.add_check v ctx env value m = Except.ok env') :
    EnvFrame env env' := by
  cases ha : Env.add env v.name value m with
  | ok e2 =>
    simp only [UnscopedVariable.add_check, ha, Except.ok.injEq] at h
    subst h
    exact EnvFrame_add env e2 v.name value m ha
  | error e => simp [UnscopedVariable.add_check, ha] at h

theorem EnvFrame_unscoped_set_check (v : UnscopedVariable) (ctx : CheckContext)
    (env : Env) (value : ExpressionResult) (env' : Env)
    (h : UnscopedVariable.set_check v ctx env value = Except.ok env') :
    EnvFrame env env' := by
  cases ha : Env.set env v.name value with
  | ok e2 =>
    simp only [UnscopedVariable.set_check, ha, Except.ok.injEq] at h
    subst h
    exact EnvFrame_set env e2 v.name value ha
  | error e => simp [UnscopedVariable.set_check, ha] at h

theorem EnvFrame_add_check (v : Variable) (ctx : CheckContext) (env : Env)
    (value : ExpressionResult) (m : Bool) (out : Variable × Env)
    (h : Variable.add_check v ctx env value m = Except.ok out) :
    EnvFrame env out.2 := by
  obtain ⟨v', env'⟩ := out
  obtain u | sv := v
  · cases ha : UnscopedVariable.add_check u ctx env value m with
    | ok e2 =>
      simp only [Variable.add_check, ha, Except.ok.injEq, Prod.mk.injEq] at h
      obtain ⟨h1, h2⟩ := h
      subst h2
      exact EnvFrame_unscoped_add_check u ctx env value m e2 ha
    | error e => simp [Variable.add_check, ha] at h
  · obtain ⟨scope, nm⟩ := sv
    cases hs : Expression.check scope ctx env with
    | ok o =>
      obtain ⟨sc', r⟩ := o
      simp only [Variable.add_check, ScopedVariable.add_check, hs, Except.ok.injEq,
        Prod.mk.injEq] at h
      obtain ⟨h1, h2⟩ := h
      subst h2
      exact EnvFrame_refl env
    | error e => simp [Variable.add_check, ScopedVariable.add_check, hs] at h

theorem EnvFrame_set_check (v : Variable) (ctx : CheckContext) (env : Env)
    (value : ExpressionResult) (out : Variable × Env)
    (h : Variable.set_check v ctx env value = Except.ok out) :
    EnvFrame env out.2 := by
  obtain ⟨v', env'⟩ := out
  obtain u | sv := v
  · cases ha : UnscopedVariable.set_check u ctx env value with
    | ok e2 =>
      simp only [Variable.set_check, ha, Except.ok.injEq, Prod.mk.injEq] at h
      obtain ⟨h1, h2⟩ := h
      subst h2
      exact EnvFrame_unscoped_set_check u ctx env value e2 ha
    | error e => simp [Variable.set_check, ha] at h
  · obtain ⟨scope, nm⟩ := sv
    cases hs : Expression.check scope ctx env with
    | ok o =>
      obtain ⟨sc', r⟩ := o
      simp only [Variable.set_check, ScopedVariable.set_check, hs, Except.ok.injEq,
        Prod.mk.injEq] at h
      obtain ⟨h1, h2⟩ := h
      subst h2
      exact EnvFrame_refl env
    | error e => simp [Variable.set_check, ScopedVariable.set_check, hs] at h

theorem EnvFrame_declareImmutable (stmt : DeclareImmutable) (ctx : CheckContext)
    (env : Env) (stmt' : DeclareImmutable) (env' : Env)
    (h : DeclareImmutable.check stmt ctx env = Except.ok (stmt', env')) :
    EnvFrame env env' := by
  cases hv : Expression.check stmt.value ctx env with
  | error e => simp [DeclareImmutable.check, hv] at h
  | ok o =>
    obtain ⟨value', result⟩ := o
    cases ha : Variable.add_check stmt.var ctx env result false with
    | error e => simp [DeclareImmutable.check, hv, ha] at h
    | ok o2 =>
      obtain ⟨var', env2⟩ := o2
      simp only [DeclareImmutable.check, hv, ha, Except.ok.injEq, Prod.mk.injEq] at h
      obtain ⟨h1, h2⟩ := h
      subst h2
      exact EnvFrame_add_check stmt.var ctx env result false (var', env2) ha

theorem EnvFrame_declareMutable (stmt : DeclareMutable) (ctx : CheckContext)
    (env : Env) (stmt' : DeclareMutable) (env' : Env)
    (h : DeclareMutable.check stmt ctx env = Except.ok (stmt', env')) :
    EnvFrame env env' := by
  cases hv : Expression.check stmt.value ctx env with
  | error e => simp [DeclareMutable.check, hv] at h
  | ok o =>
    obtain ⟨value', result⟩ := o
    cases ha : Variable.add_check stmt.var ctx env result true with
    | error e => simp [DeclareMutable.check, hv, ha] at h
    | ok o2 =>
      obtain ⟨var', env2⟩ := o2
      simp only [DeclareMutable.check, hv, ha, Except.ok.injEq, Prod.mk.injEq] at h
      obtain ⟨h1, h2⟩ := h
      subst h2
      exact EnvFrame_add_check stmt.var ctx env result true (var', env2) ha

theorem EnvFrame_assign (stmt : Assign) (ctx : CheckContext) (env : Env)
    (stmt' : Assign) (env' : Env)
    (h : Assign.check stmt ctx env = Except.ok (stmt', env')) :
    EnvFrame env env' := by
  cases hv : Expression.check stmt.value ctx env with
  | error e => simp [Assign.check, hv] at h
  | ok o =>
    obtain ⟨value', result⟩ := o
    cases ha : Variable.set_check stmt.var ctx env result with
    | error e => simp [Assign.check, hv, ha] at h
    | ok o2 =>
      obtain ⟨var', env2⟩ := o2
      simp only [Assign.check, hv, ha, Except.ok.injEq, Prod.mk.injEq] at h
      obtain ⟨h1, h2⟩ := h
      subst h2
      exact EnvFrame_set_check stmt.var ctx env result (var', env2) ha

theorem EnvFrame_createGraphNode (stmt : CreateGraphNode) (ctx : CheckContext)
    (env : Env) (stmt' : CreateGraphNode) (env' : Env)
    (h : CreateGraphNode.check stmt ctx env = Except.ok (stmt', env')) :
    EnvFrame env env' := by
  cases ha : Variable.add_check stmt.node ctx env
      { quantifier := CaptureQuantifier.One } false with
  | error e => simp [CreateGraphNode.check, ha] at h
  | ok o2 =>
    obtain ⟨node', env2⟩ := o2
    simp only [CreateGraphNode.check, ha, Except.ok.injEq, Prod.mk.injEq] at h
    obtain ⟨h1, h2⟩ := h
    subst h2
    exact EnvFrame_add_check stmt.node ctx env
      { quantifier := CaptureQuantifier.One } false (node', env2) ha

theorem EnvFrame_addGraphNodeAttribute (stmt : AddGraphNodeAttribute)
    (ctx : CheckContext) (env : Env) (stmt' : AddGraphNodeAttribute) (env' : Env)
    (h : AddGraphNodeAttribute.check stmt ctx env = Except.ok (stmt', env')) :
    EnvFrame env env' := by
  cases hn : Expression.check stmt.node ctx env with
  | error e => simp [AddGraphNodeAttribute.check, hn] at h
  | ok o =>
    obtain ⟨node', r⟩ := o
    cases ha : Attributes.check stmt.attributes ctx env with
    | error e => simp [AddGraphNodeAttribute.check, hn, ha] at h
    | ok attrs' =>
      simp only [AddGraphNodeAttribute.check, hn, ha, Except.ok.injEq,
        Prod.mk.injEq] at h
      obtain ⟨h1, h2⟩ := h
      subst h2
      exact EnvFrame_refl env

theorem EnvFrame_createEdge (stmt : CreateEdge) (ctx : CheckContext) (env : Env)
    (stmt' : CreateEdge) (env' : Env)
    (h : CreateEdge.check stmt ctx env = Except.ok (stmt', env')) :
    EnvFrame env env' := by
  cases hs : Expression.check stmt.source ctx env with
  | error e => simp [CreateEdge.check, hs] at h
  | ok o =>
    obtain ⟨source', r1⟩ := o
    cases hk : Expression.check stmt.sink ctx env with
    | error e => simp [CreateEdge.check, hs, hk] at h
    | ok o2 =>
      obtain ⟨sink', r2⟩ := o2
      simp only [CreateEdge.check, hs, hk, Except.ok.injEq, Prod.mk.injEq] at h
      obtain ⟨h1, h2⟩ := h
      subst h2
      exact EnvFrame_refl env

theorem EnvFrame_addEdgeAttribute (stmt : AddEdgeAttribute) (ctx : CheckContext)
    (env : Env) (stmt' : AddEdgeAttribute) (env' : Env)
    (h : AddEdgeAttribute.check stmt ctx env = Except.ok (stmt', env')) :
    EnvFrame env env' := by
  cases hs : Expression.check stmt.source ctx env with
  | error e => simp [AddEdgeAttribute.check, hs] at h
  | ok o =>
    obtain ⟨source', r1⟩ := o
    cases hk : Expression.check stmt.sink ctx env with
    | error e => simp [AddEdgeAttribute.check, hs, hk] at h
    | ok o2 =>
      obtain ⟨sink', r2⟩ := o2
      cases ha : Attributes.check stmt.attributes ctx env with
      | error e => simp [AddEdgeAttribute.check, hs, hk, ha] at h
      | ok attrs' =>
        simp only [AddEdgeAttribute.check, hs, hk, ha, Except.ok.injEq,
          Prod.mk.injEq] at h
        obtain ⟨h1, h2⟩ := h
        subst h2
        exact EnvFrame_refl env

theorem EnvFrame_print (stmt : Print) (ctx : CheckContext) (env : Env)
    (stmt' : Print) (env' : Env)
    (h : Print.check stmt ctx env = Except.ok (stmt', env')) :
    EnvFrame env env' := by
  cases hv : Expressions.check stmt.values ctx env with
  | error e => simp [Print.check, hv] at h
  | ok values' =>
    simp only [Print.check, hv, Except.ok.injEq, Prod.mk.injEq] at h
    obtain ⟨h1, h2⟩ := h
    subst h2
    exact EnvFrame_refl env

/-! ## The frame theorem and claim C7 -/

theorem Statements_check_frame :
    ∀ (stmts : List Statement) (ctx : CheckContext) (env : Env),
    ∀ out, Statements.check stmts ctx env = Except.ok out → EnvFrame env out.2 := by
  apply Statements.check.induct
    (fun stmt ctx env => ∀ out, Statement.check stmt ctx env = Except.ok out → EnvFrame env out.2)
    (fun stmt ctx env => ∀ out, ForIn.check stmt ctx env = Except.ok out → EnvFrame env out.2)
    (fun stmts ctx env => ∀ out, Statements.check stmts ctx env = Except.ok out → EnvFrame env out.2)
    (fun stmt ctx env => ∀ out, If.check stmt ctx env = Except.ok out → EnvFrame env out.2)
    (fun arms ctx env => ∀ out, IfArms.check arms ctx env = Except.ok out → EnvFrame env out.2)
    (fun arm ctx env => ∀ out, IfArm.check arm ctx env = Except.ok out → EnvFrame env out.2)
    (fun stmt ctx env => ∀ out, Scan.check stmt ctx env = Except.ok out → EnvFrame env out.2)
    (fun arms ctx env => ∀ out, ScanArms.check arms ctx env = Except.ok out → EnvFrame env out.2)
    (fun arm ctx env => ∀ out, ScanArm.check arm ctx env = Except.ok out → EnvFrame env out.2)
  case case1 =>
    intro stmt ctx env stmt' env' h out hout
    simp only [Statement.check, h, Except.ok.injEq] at hout
    subst hout
    exact EnvFrame_declareImmutable stmt ctx env stmt' env' h
  case case2 =>
    intro stmt ctx env e h out hout
    simp only [Statement.check, h] at hout
    exact Except.noConfusion hout
  case case3 =>
    intro stmt ctx env stmt' env' h out hout
    simp only [Statement.check, h, Except.ok.injEq] at hout
    subst hout
    exact EnvFrame_declareMutable stmt ctx env stmt' env' h
  case case4 =>
    intro stmt ctx env e h out hout
    simp only [Statement.check, h] at hout
    exact Except.noConfusion hout
  case case5 =>
    intro stmt ctx env stmt' env' h out hout
    simp only [Statement.check, h, Except.ok.injEq] at hout
    subst hout
    exact EnvFrame_assign stmt ctx env stmt' env' h
  case case6 =>
    intro stmt ctx env e h out hout
    simp only [Statement.check, h] at hout
    exact Except.noConfusion hout
  case case7 =>
    intro stmt ctx env stmt' env' h out hout
    simp only [Statement.check, h, Except.ok.injEq] at hout
    subst hout
    exact EnvFrame_createGraphNode stmt ctx env stmt' env' h
  case case8 =>
    intro stmt ctx env e h out hout
    simp only [Statement.check, h] at hout
    exact Except.noConfusion hout
  case case9 =>
    intro stmt ctx env stmt' env' h out hout
    simp only [Statement.check, h, Except.ok.injEq] at hout
    subst hout
    exact EnvFrame_addGraphNodeAttribute stmt ctx env stmt' env' h
  case case10 =>
    intro stmt ctx env e h out hout
    simp only [Statement.check, h] at hout
    exact Except.noConfusion hout
  case case11 =>
    intro stmt ctx env stmt' env' h out hout
    simp only [Statement.check, h, Except.ok.injEq] at hout
    subst hout
    exact EnvFrame_createEdge stmt ctx env stmt' env' h
  case case12 =>
    intro stmt ctx env e h out hout
    simp only [Statement.check, h] at hout
    exact Except.noConfusion hout
  case case13 =>
    intro stmt ctx env stmt' env' h out hout
    simp only [Statement.check, h, Except.ok.injEq] at hout
    subst hout
    exact EnvFrame_addEdgeAttribute stmt ctx env stmt' env' h
  case case14 =>
    intro stmt ctx env e h out hout
    simp only [Statement.check, h] at hout
    exact Except.noConfusion hout
  case case17 =>
    intro stmt ctx env stmt' env' h out hout
    simp only [Statement.check, h, Except.ok.injEq] at hout
    subst hout
    exact EnvFrame_print stmt ctx env stmt' env' h
  case case18 =>
    intro stmt ctx env e h out hout
    simp only [Statement.check, h] at hout
    exact Except.noConfusion hout
  case case15 =>
    intro stmt ctx env stmt' env' h ih out hout
    simp only [Statement.check, h, Except.ok.injEq] at hout
    subst hout
    exact ih (stmt', env') h
  case case16 =>
    intro stmt ctx env e h ih out hout
    simp only [Statement.check, h] at hout
    exact Except.noConfusion hout
  case case19 =>
    intro stmt ctx env stmt' env' h ih out hout
    simp only [Statement.check, h, Except.ok.injEq] at hout
    subst hout
    exact ih (stmt', env') h
  case case20 =>
    intro stmt ctx env e h ih out hout
    simp only [Statement.check, h] at hout
    exact Except.noConfusion hout
  case case21 =>
    intro stmt ctx env stmt' env' h ih out hout
    simp only [Statement.check, h, Except.ok.injEq] at hout
    subst hout
    exact ih (stmt', env') h
  case case22 =>
    intro stmt ctx env e h ih out hout
    simp only [Statement.check, h] at hout
    exact Except.noConfusion hout
  case case23 =>
    intro value arms ctx env value' rv hv arms' env' harms ih out hout
    simp only [Scan.check, hv, harms, Except.ok.injEq] at hout
    subst hout
    exact ih (arms', env') harms
  case case24 =>
    intro value arms ctx env value' rv hv e harms ih out hout
    simp only [Scan.check, hv, harms] at hout
    exact Except.noConfusion hout
  case case25 =>
    intro value arms ctx env e hv out hout
    simp only [Scan.check, hv] at hout
    exact Except.noConfusion hout
  case case26 =>
    intro regex statements ctx env rest' head parent hstmts ih out hout
    simp only [ScanArm.check, hstmts, Except.ok.injEq] at hout
    subst hout
    exact EnvFrame_pop [] head env parent (ih (rest', head :: parent) hstmts)
  case case27 =>
    intro regex statements ctx env rest' hstmts ih out hout
    simp only [ScanArm.check, hstmts] at hout
    exact Except.noConfusion hout
  case case28 =>
    intro regex statements ctx env e hstmts ih out hout
    simp only [ScanArm.check, hstmts] at hout
    exact Except.noConfusion hout
  case case29 =>
    intro arms ctx env arms' env' harms ih out hout
    simp only [If.check, harms, Except.ok.injEq] at hout
    subst hout
    exact ih (arms', env') harms
  case case30 =>
    intro arms ctx env e harms ih out hout
    simp only [If.check, harms] at hout
    exact Except.noConfusion hout
  case case31 =>
    intro conditions statements ctx env conds' hconds rest' head parent hstmts ih out hout
    simp only [IfArm.check, hconds, hstmts, Except.ok.injEq] at hout
    subst hout
    exact EnvFrame_pop [] head env parent (ih (rest', head :: parent) hstmts)
  case case32 =>
    intro conditions statements ctx env conds' hconds rest' hstmts ih out hout
    simp only [IfArm.check, hconds, hstmts] at hout
    exact Except.noConfusion hout
  case case33 =>
    intro conditions statements ctx env conds' hconds e hstmts ih out hout
    simp only [IfArm.check, hconds, hstmts] at hout
    exact Except.noConfusion hout
  case case34 =>
    intro conditions statements ctx env e hconds out hout
    simp only [IfArm.check, hconds] at hout
    exact Except.noConfusion hout
  case case35 =>
    intro var capture statements location ctx env e' snd hcap hgate out hout
    simp only [ForIn.check, hcap, if_pos hgate] at hout
    exact Except.noConfusion hout
  case case36 =>
    intro var capture statements location ctx env e' snd hcap hgate env' hadd rest' head parent hstmts ih out hout
    simp only [ForIn.check, hcap, if_neg hgate, hadd, hstmts, Except.ok.injEq] at hout
    subst hout
    have h1 : EnvFrame (Env.new_child env) env' :=
      EnvFrame_unscoped_add_check var ctx (Env.new_child env) snd false env' hadd
    have h2 := ih (rest', head :: parent) hstmts
    exact EnvFrame_pop [] head env parent (EnvFrame_trans h1 h2)
  case case37 =>
    intro var capture statements location ctx env e' snd hcap hgate env' hadd rest' hstmts ih out hout
    simp only [ForIn.check, hcap, if_neg hgate, hadd, hstmts] at hout
    exact Except.noConfusion hout
  case case38 =>
    intro var capture statements location ctx env e' snd hcap hgate env' hadd e hstmts ih out hout
    simp only [ForIn.check, hcap, if_neg hgate, hadd, hstmts] at hout
    exact Except.noConfusion hout
  case case39 =>
    intro var capture statements location ctx env e' snd hcap hgate e hadd out hout
    simp only [ForIn.check, hcap, if_neg hgate, hadd] at hout
    exact Except.noConfusion hout
  case case40 =>
    intro var capture statements location ctx env err hcap out hout
    simp only [ForIn.check, hcap] at hout
    exact Except.noConfusion hout
  case case41 =>
    intro ctx env out hout
    simp only [ScanArms.check, Except.ok.injEq] at hout
    subst hout
    exact EnvFrame_refl env
  case case42 =>
    intro x rest ctx env x' env1 hx rest' env2 hrest ih2 ih1 out hout
    simp only [ScanArms.check, hx, hrest, Except.ok.injEq] at hout
    subst hout
    exact EnvFrame_trans (ih2 (x', env1) hx) (ih1 (rest', env2) hrest)
  case case43 =>
    intro x rest ctx env x' env1 hx e hrest ih2 ih1 out hout
    simp only [ScanArms.check, hx, hrest] at hout
    exact Except.noConfusion hout
  case case44 =>
    intro x rest ctx env e hx ih1 out hout
    simp only [ScanArms.check, hx] at hout
    exact Except.noConfusion hout
  case case45 =>
    intro ctx env out hout
    simp only [Statements.check, Except.ok.injEq] at hout
    subst hout
    exact EnvFrame_refl env
  case case46 =>
    intro x rest ctx env x' env1 hx rest' env2 hrest ih2 ih1 out hout
    simp only [Statements.check, hx, hrest, Except.ok.injEq] at hout
    subst hout
    exact EnvFrame_trans (ih2 (x', env1) hx) (ih1 (rest', env2) hrest)
  case case47 =>
    intro x rest ctx env x' env1 hx e hrest ih2 ih1 out hout
    simp only [Statements.check, hx, hrest] at hout
    exact Except.noConfusion hout
  case case48 =>
    intro x rest ctx env e hx ih1 out hout
    simp only [Statements.check, hx] at hout
    exact Except.noConfusion hout
  case case49 =>
    intro ctx env out hout
    simp only [IfArms.check, Except.ok.injEq] at hout
    subst hout
    exact EnvFrame_refl env
  case case50 =>
    intro x rest ctx env x' env1 hx rest' env2 hrest ih2 ih1 out hout
    simp only [IfArms.check, hx, hrest, Except.ok.injEq] at hout
    subst hout
    exact EnvFrame_trans (ih2 (x', env1) hx) (ih1 (rest', env2) hrest)
  case case51 =>
    intro x rest ctx env x' env1 hx e hrest ih2 ih1 out hout
    simp only [IfArms.check, hx, hrest] at hout
    exact Except.noConfusion hout
  case case52 =>
    intro x rest ctx env e hx ih1 out hout
    simp only [IfArms.check, hx] at hout
    exact Except.noConfusion hout

/-- C7: guard conditions of a conditional arm are checked without any
access to the local environment (so they can never see bindings of any arm
body); every conditional arm, scan arm and loop body is checked in a
freshly pushed child scope that is popped afterwards, with the popped
environment threaded to the next sibling arm; and after a child scope is
discarded, every outer scope keeps its binding for any name that was
shadowed in the child. -/
theorem claim_C7 :
    (∀ (conditions : List Condition) (statements : List Statement)
       (ctx : CheckContext) (env : Env),
      IfArm.check (IfArm.mk conditions statements) ctx env =
        (match Conditions.check conditions ctx with
         | Except.ok conditions' =>
           (match Statements.check statements ctx (Env.new_child env) with
            | Except.ok (statements', env') =>
              (match env' with
               | _ :: parent => Except.ok (IfArm.mk conditions' statements', parent)
               | [] => Except.error CheckFailure.panicked)
            | Except.error e => Except.error e)
         | Except.error e => Except.error e)) ∧
    (∀ (regex : String) (statements : List Statement) (ctx : CheckContext)
       (env : Env),
      ScanArm.check (ScanArm.mk regex statements) ctx env =
        (match Statements.check statements ctx (Env.new_child env) with
         | Except.ok (statements', env') =>
           (match env' with
            | _ :: parent => Except.ok (ScanArm.mk regex statements', parent)
            | [] => Except.error CheckFailure.panicked)
         | Except.error e => Except.error e)) ∧
    (∀ (arm : IfArm) (rest : List IfArm) (ctx : CheckContext) (env : Env),
      IfArms.check (arm :: rest) ctx env =
        (match IfArm.check arm ctx env with
         | Except.ok (arm', env') =>
           (match IfArms.check rest ctx env' with
            | Except.ok (rest', env'') => Except.ok (arm' :: rest', env'')
            | Except.error e => Except.error e)
         | Except.error e => Except.error e)) ∧
    (∀ (stmts : List Statement) (ctx : CheckContext) (scope : Scope)
       (env : Env) (out : List Statement × Env),
      Statements.check stmts ctx (scope :: env) = Except.ok out →
      ∀ n, (Scope.lookup scope n).isSome = true →
      ∀ j, lookupAt out.2 (j + 1) n = lookupAt (scope :: env) (j + 1) n) := by
  refine ⟨fun conditions statements ctx env => rfl,
          fun regex statements ctx env => rfl,
          fun arm rest ctx env => rfl, ?_⟩
  intro stmts ctx scope env out h n hn j
  exact (Statements_check_frame stmts ctx (scope :: env) out h).2.2 (j + 1) n
    ⟨0, Nat.succ_pos j, hn⟩

/-- Witness for C7: a child scope shadowing the mutable `x` absorbs an
assignment that visibly rewrites the child binding, while the parent scope
keeps its own binding for `x` untouched. -/
theorem claim_C7_witness :
    lookupAt [exChildScope2, exParentScope] 1 "x" =
      lookupAt [exChildScope, exParentScope] 1 "x" :=
  claim_C7.2.2.2 [exAssignList] exCtx exChildScope [exParentScope]
    ([exAssignList], [exChildScope2, exParentScope]) rfl "x" rfl 0

/-! ## Claim C9: the asserting unwraps never fire on covered files -/

theorem idxOf?_lt_length : ∀ (l : List String) (name : String) (i : Nat),
    idxOf? l name = some i → i < l.length := by
  intro l
  induction l with
  | nil => intro name i h; simp [idxOf?] at h
  | cons s rest ih =>
    intro name i h
    simp only [idxOf?] at h
    by_cases hs : s = name
    · rw [if_pos hs] at h
      cases Option.some.inj h
      simp
    · rw [if_neg hs] at h
      cases hr : idxOf? rest name with
      | none => simp [hr] at h
      | some j =>
        rw [hr] at h
        cases Option.some.inj h
        exact Nat.succ_lt_succ (ih name j hr)

theorem getAt_isSome_of_lt : ∀ (l : List α) (i : Nat), i < l.length →
    ∃ x, getAt l i = some x := by
  intro l
  induction l with
  | nil =>
    intro i h
    simp at h
  | cons a rest ih =>
    intro i h
    cases i with
    | zero => exact ⟨a, rfl⟩
    | succ i => exact ih i (Nat.lt_of_succ_lt_succ h)

theorem capture_check_no_panic (c : Capture) (ctx : CheckContext)
    (hcov : ctx.covers) :
    Capture.check c ctx ≠ Except.error CheckFailure.panicked := by
  intro h
  unfold Capture.check at h
  cases h1 : ctx.stanza_query.capture_index_for_name (ctx.ctx.resolve c.name) with
  | none => simp [h1] at h
  | some si =>
    obtain ⟨hnames, table, htab, hlen⟩ := hcov
    have hfi : (ctx.file_query.capture_index_for_name (ctx.ctx.resolve c.name)).isSome = true :=
      hnames _ si h1
    cases h2 : ctx.file_query.capture_index_for_name (ctx.ctx.resolve c.name) with
    | none =>
      rw [h2] at hfi
      exact Bool.noConfusion hfi
    | some fi =>
      have hfi_lt : fi < ctx.file_query.capture_names.length :=
        idxOf?_lt_length _ _ _ h2
      obtain ⟨q, hq⟩ := getAt_isSome_of_lt table fi (by rw [hlen]; exact hfi_lt)
      simp [h1, h2, htab, hq] at h

theorem UnscopedVariable.add_check_error_kind (v : UnscopedVariable)
    (ctx : CheckContext) (env : Env) (value : ExpressionResult) (m : Bool)
    (e : CheckFailure)
    (h : UnscopedVariable.add_check v ctx env value m = Except.error e) :
    ∃ ve, e = CheckFailure.err (CheckError.Variable ve (display_with v.name ctx.ctx)) := by
  cases ha : Env.add env v.name value m with
  | ok e2 => simp [UnscopedVariable.add_check, ha] at h
  | error e0 =>
    simp only [UnscopedVariable.add_check, ha, Except.error.injEq] at h
    exact ⟨e0, h.symm⟩

theorem UnscopedVariable.set_check_error_kind (v : UnscopedVariable)
    (ctx : CheckContext) (env : Env) (value : ExpressionResult)
    (e : CheckFailure)
    (h : UnscopedVariable.set_check v ctx env value = Except.error e) :
    ∃ ve, e = CheckFailure.err (CheckError.Variable ve (display_with v.name ctx.ctx)) := by
  cases ha : Env.set env v.name value with
  | ok e2 => simp [UnscopedVariable.set_check, ha] at h
  | error e0 =>
    simp only [UnscopedVariable.set_check, ha, Except.error.injEq] at h
    exact ⟨e0, h.symm⟩

theorem expr_no_panic :
    ∀ (e : Expression) (ctx : CheckContext) (env : Env), ctx.covers →
    Expression.check e ctx env ≠ Except.error CheckFailure.panicked := by
  apply Expression.check.induct
    (fun e ctx env => ctx.covers →
      Expression.check e ctx env ≠ Except.error CheckFailure.panicked)
    (fun v ctx env => ctx.covers →
      Variable.get_check v ctx env ≠ Except.error CheckFailure.panicked)
    (fun sv ctx env => ctx.covers →
      ScopedVariable.get_check sv ctx env ≠ Except.error CheckFailure.panicked)
    (fun es ctx env => ctx.covers →
      Expressions.check es ctx env ≠ Except.error CheckFailure.panicked)
  all_goals intros
  all_goals intro h
  all_goals
    first
    | (rename_i c ctx env e hcase hcov
       simp only [Expression.check, hcase] at h
       cases Except.error.inj h
       exact absurd hcase (capture_check_no_panic c ctx hcov))
    | simp_all [Expression.check, Expressions.check, Variable.get_check,
        ScopedVariable.get_check, UnscopedVariable.get_check]
theorem variable_get_check_no_panic (v : Variable) (ctx : CheckContext) (env : Env)
    (hcov : ctx.covers) :
    Variable.get_check v ctx env ≠ Except.error CheckFailure.panicked := by
  intro h
  obtain u | sv := v
  · simp [Variable.get_check, UnscopedVariable.get_check] at h
  · obtain ⟨scope, nm⟩ := sv
    cases hs : Expression.check scope ctx env with
    | ok o =>
      obtain ⟨sc', r⟩ := o
      simp [Variable.get_check, ScopedVariable.get_check, hs] at h
    | error e =>
      simp only [Variable.get_check, ScopedVariable.get_check, hs,
        Except.error.injEq] at h
      subst h
      exact expr_no_panic scope ctx env hcov hs

theorem variable_add_check_no_panic (v : Variable) (ctx : CheckContext) (env : Env)
    (value : ExpressionResult) (m : Bool) (hcov : ctx.covers) :
    Variable.add_check v ctx env value m ≠ Except.error CheckFailure.panicked := by
  intro h
  obtain u | sv := v
  · cases ha : Env.add env u.name value m with
    | ok e2 => simp [Variable.add_check, UnscopedVariable.add_check, ha] at h
    | error e0 => simp [Variable.add_check, UnscopedVariable.add_check, ha] at h
  · obtain ⟨scope, nm⟩ := sv
    cases hs : Expression.check scope ctx env with
    | ok o =>
      obtain ⟨sc', r⟩ := o
      simp [Variable.add_check, ScopedVariable.add_check, hs] at h
    | error e =>
      simp only [Variable.add_check, ScopedVariable.add_check, hs,
        Except.error.injEq] at h
      subst h
      exact expr_no_panic scope ctx env hcov hs

theorem variable_set_check_no_panic (v : Variable) (ctx : CheckContext) (env : Env)
    (value : ExpressionResult) (hcov : ctx.covers) :
    Variable.set_check v ctx env value ≠ Except.error CheckFailure.panicked := by
  intro h
  obtain u | sv := v
  · cases ha : Env.set env u.name value with
    | ok e2 => simp [Variable.set_check, UnscopedVariable.set_check, ha] at h
    | error e0 => simp [Variable.set_check, UnscopedVariable.set_check, ha] at h
  · obtain ⟨scope, nm⟩ := sv
    cases hs : Expression.check scope ctx env with
    | ok o =>
      obtain ⟨sc', r⟩ := o
      simp [Variable.set_check, ScopedVariable.set_check, hs] at h
    | error e =>
      simp only [Variable.set_check, ScopedVariable.set_check, hs,
        Except.error.injEq] at h
      subst h
      exact expr_no_panic scope ctx env hcov hs

theorem unscoped_add_check_no_panic (v : UnscopedVariable)
    (ctx : CheckContext) (env : Env) (value : ExpressionResult) (m : Bool) :
    UnscopedVariable.add_check v ctx env value m ≠
      Except.error CheckFailure.panicked := by
  intro h
  cases ha : Env.add env v.name value m with
  | ok e2 => simp [UnscopedVariable.add_check, ha] at h
  | error e0 => simp [UnscopedVariable.add_check, ha] at h

theorem scan_expression_check_no_panic (se : ScanExpression) (ctx : CheckContext)
    (env : Env) (hcov : ctx.covers) :
    ScanExpression.check se ctx env ≠ Except.error CheckFailure.panicked := by
  intro h
  cases se with
  | stringConstant v => simp [ScanExpression.check] at h
  | capture c =>
    cases hc : Capture.check c ctx with
    | ok o =>
      obtain ⟨c', r⟩ := o
      simp [ScanExpression.check, hc] at h
    | error e =>
      simp only [ScanExpression.check, hc, Except.error.injEq] at h
      subst h
      exact capture_check_no_panic c ctx hcov hc
  | var v =>
    cases hv : Variable.get_check v ctx env with
    | ok o =>
      obtain ⟨v', r⟩ := o
      simp [ScanExpression.check, hv] at h
    | error e =>
      simp only [ScanExpression.check, hv, Except.error.injEq] at h
      subst h
      exact variable_get_check_no_panic v ctx env hcov hv
  | regexCapture g => simp [ScanExpression.check] at h

theorem expressions_check_no_panic :
    ∀ (es : List Expression) (ctx : CheckContext) (env : Env), ctx.covers →
    Expressions.check es ctx env ≠ Except.error CheckFailure.panicked := by
  intro es
  induction es with
  | nil =>
    intro ctx env hcov h
    simp [Expressions.check] at h
  | cons e rest ih =>
    intro ctx env hcov h
    cases he : Expression.check e ctx env with
    | error e0 =>
      simp only [Expressions.check, he, Except.error.injEq] at h
      subst h
      exact expr_no_panic e ctx env hcov he
    | ok o =>
      obtain ⟨e', r⟩ := o
      cases hr : Expressions.check rest ctx env with
      | error e0 =>
        simp only [Expressions.check, he, hr, Except.error.injEq] at h
        subst h
        exact ih ctx env hcov hr
      | ok rest' => simp [Expressions.check, he, hr] at h

theorem attribute_check_no_panic (a : Attribute) (ctx : CheckContext) (env : Env)
    (hcov : ctx.covers) :
    Attribute.check a ctx env ≠ Except.error CheckFailure.panicked := by
  intro h
  cases hv : Expression.check a.value ctx env with
  | ok o =>
    obtain ⟨v', r⟩ := o
    simp [Attribute.check, hv] at h
  | error e =>
    simp only [Attribute.check, hv, Except.error.injEq] at h
    subst h
    exact expr_no_panic a.value ctx env hcov hv

theorem attributes_check_no_panic :
    ∀ (attrs : List Attribute) (ctx : CheckContext) (env : Env), ctx.covers →
    Attributes.check attrs ctx env ≠ Except.error CheckFailure.panicked := by
  intro attrs
  induction attrs with
  | nil =>
    intro ctx env hcov h
    simp [Attributes.check] at h
  | cons a rest ih =>
    intro ctx env hcov h
    cases ha : Attribute.check a ctx env with
    | error e =>
      simp only [Attributes.check, ha, Except.error.injEq] at h
      subst h
      exact attribute_check_no_panic a ctx env hcov ha
    | ok a' =>
      cases hr : Attributes.check rest ctx env with
      | error e =>
        simp only [Attributes.check, ha, hr, Except.error.injEq] at h
        subst h
        exact ih ctx env hcov hr
      | ok rest' => simp [Attributes.check, ha, hr] at h

theorem check_captures_no_panic :
    ∀ (cs : List Capture) (ctx : CheckContext), ctx.covers →
    Condition.checkCaptures cs ctx ≠ Except.error CheckFailure.panicked := by
  intro cs
  induction cs with
  | nil =>
    intro ctx hcov h
    simp [Condition.checkCaptures] at h
  | cons c rest ih =>
    intro ctx hcov h
    cases hc : Capture.check c ctx with
    | error e =>
      simp only [Condition.checkCaptures, hc, Except.error.injEq] at h
      subst h
      exact capture_check_no_panic c ctx hcov hc
    | ok o =>
      obtain ⟨c', r⟩ := o
      rw [checkCaptures_cons ctx c rest c' r hc] at h
      by_cases hq : r.quantifier = CaptureQuantifier.ZeroOrOne
      · rw [if_neg (by simp [hq])] at h
        cases hr : Condition.checkCaptures rest ctx with
        | error e =>
          rw [hr] at h
          cases Except.error.inj h
          exact ih ctx hcov hr
        | ok rest' =>
          rw [hr] at h
          exact Except.noConfusion h
      · rw [if_pos (by simp [hq])] at h
        simp at h

theorem condition_check_no_panic (c : Condition) (ctx : CheckContext)
    (hcov : ctx.covers) :
    Condition.check c ctx ≠ Except.error CheckFailure.panicked := by
  intro h
  cases c with
  | None cs =>
    cases hc : Condition.checkCaptures cs ctx with
    | ok cs' => simp [Condition.check, hc] at h
    | error e =>
      simp only [Condition.check, hc, Except.error.injEq] at h
      subst h
      exact check_captures_no_panic cs ctx hcov hc
  | Some cs =>
    cases hc : Condition.checkCaptures cs ctx with
    | ok cs' => simp [Condition.check, hc] at h
    | error e =>
      simp only [Condition.check, hc, Except.error.injEq] at h
      subst h
      exact check_captures_no_panic cs ctx hcov hc

theorem conditions_check_no_panic :
    ∀ (cs : List Condition) (ctx : CheckContext), ctx.covers →
    Conditions.check cs ctx ≠ Except.error CheckFailure.panicked := by
  intro cs
  induction cs with
  | nil =>
    intro ctx hcov h
    simp [Conditions.check] at h
  | cons c rest ih =>
    intro ctx hcov h
    cases hc : Condition.check c ctx with
    | error e =>
      simp only [Conditions.check, hc, Except.error.injEq] at h
      subst h
      exact condition_check_no_panic c ctx hcov hc
    | ok c' =>
      cases hr : Conditions.check rest ctx with
      | error e =>
        simp only [Conditions.check, hc, hr, Except.error.injEq] at h
        subst h
        exact ih ctx hcov hr
      | ok rest' => simp [Conditions.check, hc, hr] at h
theorem declare_immutable_check_no_panic (stmt : DeclareImmutable)
    (ctx : CheckContext) (env : Env) (hcov : ctx.covers) :
    DeclareImmutable.check stmt ctx env ≠ Except.error CheckFailure.panicked := by
  intro h
  cases hv : Expression.check stmt.value ctx env with
  | error e =>
    simp only [DeclareImmutable.check, hv, Except.error.injEq] at h
    subst h
    exact expr_no_panic stmt.value ctx env hcov hv
  | ok o =>
    obtain ⟨value', result⟩ := o
    cases ha : Variable.add_check stmt.var ctx env result false with
    | error e =>
      simp only [DeclareImmutable.check, hv, ha, Except.error.injEq] at h
      subst h
      exact variable_add_check_no_panic stmt.var ctx env result false hcov ha
    | ok o2 =>
      obtain ⟨var', env2⟩ := o2
      simp [DeclareImmutable.check, hv, ha] at h

theorem declare_mutable_check_no_panic (stmt : DeclareMutable)
    (ctx : CheckContext) (env : Env) (hcov : ctx.covers) :
    DeclareMutable.check stmt ctx env ≠ Except.error CheckFailure.panicked := by
  intro h
  cases hv : Expression.check stmt.value ctx env with
  | error e =>
    simp only [DeclareMutable.check, hv, Except.error.injEq] at h
    subst h
    exact expr_no_panic stmt.value ctx env hcov hv
  | ok o =>
    obtain ⟨value', result⟩ := o
    cases ha : Variable.add_check stmt.var ctx env result true with
    | error e =>
      simp only [DeclareMutable.check, hv, ha, Except.error.injEq] at h
      subst h
      exact variable_add_check_no_panic stmt.var ctx env result true hcov ha
    | ok o2 =>
      obtain ⟨var', env2⟩ := o2
      simp [DeclareMutable.check, hv, ha] at h

theorem assign_check_no_panic (stmt : Assign) (ctx : CheckContext) (env : Env)
    (hcov : ctx.covers) :
    Assign.check stmt ctx env ≠ Except.error CheckFailure.panicked := by
  intro h
  cases hv : Expression.check stmt.value ctx env with
  | error e =>
    simp only [Assign.check, hv, Except.error.injEq] at h
    subst h
    exact expr_no_panic stmt.value ctx env hcov hv
  | ok o =>
    obtain ⟨value', result⟩ := o
    cases ha : Variable.set_check stmt.var ctx env result with
    | error e =>
      simp only [Assign.check, hv, ha, Except.error.injEq] at h
      subst h
      exact variable_set_check_no_panic stmt.var ctx env result hcov ha
    | ok o2 =>
      obtain ⟨var', env2⟩ := o2
      simp [Assign.check, hv, ha] at h

theorem create_graph_node_check_no_panic (stmt : CreateGraphNode)
    (ctx : CheckContext) (env : Env) (hcov : ctx.covers) :
    CreateGraphNode.check stmt ctx env ≠ Except.error CheckFailure.panicked := by
  intro h
  cases ha : Variable.add_check stmt.node ctx env
      { quantifier := CaptureQuantifier.One } false with
  | error e =>
    simp only [CreateGraphNode.check, ha, Except.error.injEq] at h
    subst h
    exact variable_add_check_no_panic stmt.node ctx env
      { quantifier := CaptureQuantifier.One } false hcov ha
  | ok o2 =>
    obtain ⟨node', env2⟩ := o2
    simp [CreateGraphNode.check, ha] at h

theorem AddGraphNodeattribute_check_no_panic (stmt : AddGraphNodeAttribute)
    (ctx : CheckContext) (env : Env) (hcov : ctx.covers) :
    AddGraphNodeAttribute.check stmt ctx env ≠
      Except.error CheckFailure.panicked := by
  intro h
  cases hn : Expression.check stmt.node ctx env with
  | error e =>
    simp only [AddGraphNodeAttribute.check, hn, Except.error.injEq] at h
    subst h
    exact expr_no_panic stmt.node ctx env hcov hn
  | ok o =>
    obtain ⟨node', r⟩ := o
    cases ha : Attributes.check stmt.attributes ctx env with
    | error e =>
      simp only [AddGraphNodeAttribute.check, hn, ha, Except.error.injEq] at h
      subst h
      exact attributes_check_no_panic stmt.attributes ctx env hcov ha
    | ok attrs' => simp [AddGraphNodeAttribute.check, hn, ha] at h

theorem create_edge_check_no_panic (stmt : CreateEdge) (ctx : CheckContext)
    (env : Env) (hcov : ctx.covers) :
    CreateEdge.check stmt ctx env ≠ Except.error CheckFailure.panicked := by
  intro h
  cases hs : Expression.check stmt.source ctx env with
  | error e =>
    simp only [CreateEdge.check, hs, Except.error.injEq] at h
    subst h
    exact expr_no_panic stmt.source ctx env hcov hs
  | ok o =>
    obtain ⟨source', r1⟩ := o
    cases hk : Expression.check stmt.sink ctx env with
    | error e =>
      simp only [CreateEdge.check, hs, hk, Except.error.injEq] at h
      subst h
      exact expr_no_panic stmt.sink ctx env hcov hk
    | ok o2 =>
      obtain ⟨sink', r2⟩ := o2
      simp [CreateEdge.check, hs, hk] at h

theorem AddEdgeattribute_check_no_panic (stmt : AddEdgeAttribute)
    (ctx : CheckContext) (env : Env) (hcov : ctx.covers) :
    AddEdgeAttribute.check stmt ctx env ≠ Except.error CheckFailure.panicked := by
  intro h
  cases hs : Expression.check stmt.source ctx env with
  | error e =>
    simp only [AddEdgeAttribute.check, hs, Except.error.injEq] at h
    subst h
    exact expr_no_panic stmt.source ctx env hcov hs
  | ok o =>
    obtain ⟨source', r1⟩ := o
    cases hk : Expression.check stmt.sink ctx env with
    | error e =>
      simp only [AddEdgeAttribute.check, hs, hk, Except.error.injEq] at h
      subst h
      exact expr_no_panic stmt.sink ctx env hcov hk
    | ok o2 =>
      obtain ⟨sink', r2⟩ := o2
      cases ha : Attributes.check stmt.attributes ctx env with
      | error e =>
        simp only [AddEdgeAttribute.check, hs, hk, ha, Except.error.injEq] at h
        subst h
        exact attributes_check_no_panic stmt.attributes ctx env hcov ha
      | ok attrs' => simp [AddEdgeAttribute.check, hs, hk, ha] at h

theorem print_check_no_panic (stmt : Print) (ctx : CheckContext) (env : Env)
    (hcov : ctx.covers) :
    Print.check stmt ctx env ≠ Except.error CheckFailure.panicked := by
  intro h
  cases hv : Expressions.check stmt.values ctx env with
  | error e =>
    simp only [Print.check, hv, Except.error.injEq] at h
    subst h
    exact expressions_check_no_panic stmt.values ctx env hcov hv
  | ok values' => simp [Print.check, hv] at h

theorem Statements_check_no_panic :
    ∀ (stmts : List Statement) (ctx : CheckContext) (env : Env), ctx.covers →
    Statements.check stmts ctx env ≠ Except.error CheckFailure.panicked := by
  apply Statements.check.induct
    (fun stmt ctx env => ctx.covers →
      Statement.check stmt ctx env ≠ Except.error CheckFailure.panicked)
    (fun stmt ctx env => ctx.covers →
      ForIn.check stmt ctx env ≠ Except.error CheckFailure.panicked)
    (fun stmts ctx env => ctx.covers →
      Statements.check stmts ctx env ≠ Except.error CheckFailure.panicked)
    (fun stmt ctx env => ctx.covers →
      If.check stmt ctx env ≠ Except.error CheckFailure.panicked)
    (fun arms ctx env => ctx.covers →
      IfArms.check arms ctx env ≠ Except.error CheckFailure.panicked)
    (fun arm ctx env => ctx.covers →
      IfArm.check arm ctx env ≠ Except.error CheckFailure.panicked)
    (fun stmt ctx env => ctx.covers →
      Scan.check stmt ctx env ≠ Except.error CheckFailure.panicked)
    (fun arms ctx env => ctx.covers →
      ScanArms.check arms ctx env ≠ Except.error CheckFailure.panicked)
    (fun arm ctx env => ctx.covers →
      ScanArm.check arm ctx env ≠ Except.error CheckFailure.panicked)
  case case1 =>
    intro stmt ctx env stmt' env' hcase hcov h
    simp [Statement.check, hcase] at h
  case case2 =>
    intro stmt ctx env e hcase hcov h
    simp only [Statement.check, hcase, Except.error.injEq] at h
    subst h
    exact declare_immutable_check_no_panic stmt ctx env hcov hcase
  case case3 =>
    intro stmt ctx env stmt' env' hcase hcov h
    simp [Statement.check, hcase] at h
  case case4 =>
    intro stmt ctx env e hcase hcov h
    simp only [Statement.check, hcase, Except.error.injEq] at h
    subst h
    exact declare_mutable_check_no_panic stmt ctx env hcov hcase
  case case5 =>
    intro stmt ctx env stmt' env' hcase hcov h
    simp [Statement.check, hcase] at h
  case case6 =>
    intro stmt ctx env e hcase hcov h
    simp only [Statement.check, hcase, Except.error.injEq] at h
    subst h
    exact assign_check_no_panic stmt ctx env hcov hcase
  case case7 =>
    intro stmt ctx env stmt' env' hcase hcov h
    simp [Statement.check, hcase] at h
  case case8 =>
    intro stmt ctx env e hcase hcov h
    simp only [Statement.check, hcase, Except.error.injEq] at h
    subst h
    exact create_graph_node_check_no_panic stmt ctx env hcov hcase
  case case9 =>
    intro stmt ctx env stmt' env' hcase hcov h
    simp [Statement.check, hcase] at h
  case case10 =>
    intro stmt ctx env e hcase hcov h
    simp only [Statement.check, hcase, Except.error.injEq] at h
    subst h
    exact AddGraphNodeattribute_check_no_panic stmt ctx env hcov hcase
  case case11 =>
    intro stmt ctx env stmt' env' hcase hcov h
    simp [Statement.check, hcase] at h
  case case12 =>
    intro stmt ctx env e hcase hcov h
    simp only [Statement.check, hcase, Except.error.injEq] at h
    subst h
    exact create_edge_check_no_panic stmt ctx env hcov hcase
  case case13 =>
    intro stmt ctx env stmt' env' hcase hcov h
    simp [Statement.check, hcase] at h
  case case14 =>
    intro stmt ctx env e hcase hcov h
    simp only [Statement.check, hcase, Except.error.injEq] at h
    subst h
    exact AddEdgeattribute_check_no_panic stmt ctx env hcov hcase
  case case17 =>
    intro stmt ctx env stmt' env' hcase hcov h
    simp [Statement.check, hcase] at h
  case case18 =>
    intro stmt ctx env e hcase hcov h
    simp only [Statement.check, hcase, Except.error.injEq] at h
    subst h
    exact print_check_no_panic stmt ctx env hcov hcase
  case case15 =>
    intro stmt ctx env stmt' env' hcase ih hcov h
    simp [Statement.check, hcase] at h
  case case16 =>
    intro stmt ctx env e hcase ih hcov h
    simp only [Statement.check, hcase, Except.error.injEq] at h
    subst h
    exact ih hcov hcase
  case case19 =>
    intro stmt ctx env stmt' env' hcase ih hcov h
    simp [Statement.check, hcase] at h
  case case20 =>
    intro stmt ctx env e hcase ih hcov h
    simp only [Statement.check, hcase, Except.error.injEq] at h
    subst h
    exact ih hcov hcase
  case case21 =>
    intro stmt ctx env stmt' env' hcase ih hcov h
    simp [Statement.check, hcase] at h
  case case22 =>
    intro stmt ctx env e hcase ih hcov h
    simp only [Statement.check, hcase, Except.error.injEq] at h
    subst h
    exact ih hcov hcase
  case case23 =>
    intro value arms ctx env value' rv hv arms' env' harms ih hcov h
    simp [Scan.check, hv, harms] at h
  case case24 =>
    intro value arms ctx env value' rv hv e harms ih hcov h
    simp only [Scan.check, hv, harms, Except.error.injEq] at h
    subst h
    exact ih hcov harms
  case case25 =>
    intro value arms ctx env e hv hcov h
    simp only [Scan.check, hv, Except.error.injEq] at h
    subst h
    exact scan_expression_check_no_panic value ctx env hcov hv
  case case26 =>
    intro regex statements ctx env rest' head parent hstmts ih hcov h
    simp [ScanArm.check, hstmts] at h
  case case27 =>
    intro regex statements ctx env rest' hstmts ih hcov h
    have hf := Statements_check_frame statements ctx (Env.new_child env)
      (rest', []) hstmts
    have hlen := hf.1
    simp [Env.new_child] at hlen
  case case28 =>
    intro regex statements ctx env e hstmts ih hcov h
    simp only [ScanArm.check, hstmts, Except.error.injEq] at h
    subst h
    exact ih hcov hstmts
  case case29 =>
    intro arms ctx env arms' env' harms ih hcov h
    simp [If.check, harms] at h
  case case30 =>
    intro arms ctx env e harms ih hcov h
    simp only [If.check, harms, Except.error.injEq] at h
    subst h
    exact ih hcov harms
  case case31 =>
    intro conditions statements ctx env conds' hconds rest' head parent hstmts ih hcov h
    simp [IfArm.check, hconds, hstmts] at h
  case case32 =>
    intro conditions statements ctx env conds' hconds rest' hstmts ih hcov h
    have hf := Statements_check_frame statements ctx (Env.new_child env)
      (rest', []) hstmts
    have hlen := hf.1
    simp [Env.new_child] at hlen
  case case33 =>
    intro conditions statements ctx env conds' hconds e hstmts ih hcov h
    simp only [IfArm.check, hconds, hstmts, Except.error.injEq] at h
    subst h
    exact ih hcov hstmts
  case case34 =>
    intro conditions statements ctx env e hconds hcov h
    simp only [IfArm.check, hconds, Except.error.injEq] at h
    subst h
    exact conditions_check_no_panic conditions ctx hcov hconds
  case case35 =>
    intro var capture statements location ctx env e' snd hcap hgate hcov h
    simp [ForIn.check, hcap, if_pos hgate] at h
  case case36 =>
    intro var capture statements location ctx env e' snd hcap hgate env' hadd rest' head parent hstmts ih hcov h
    simp [ForIn.check, hcap, if_neg hgate, hadd, hstmts] at h
  case case37 =>
    intro var capture statements location ctx env e' snd hcap hgate env' hadd rest' hstmts ih hcov h
    have h1 := EnvFrame_unscoped_add_check var ctx (Env.new_child env) snd false env' hadd
    have h2 := Statements_check_frame statements ctx env' (rest', []) hstmts
    have hlen := h2.1.trans h1.1
    simp [Env.new_child] at hlen
  case case38 =>
    intro var capture statements location ctx env e' snd hcap hgate env' hadd e hstmts ih hcov h
    simp only [ForIn.check, hcap, if_neg hgate, hadd, hstmts, Except.error.injEq] at h
    subst h
    exact ih hcov hstmts
  case case39 =>
    intro var capture statements location ctx env e' snd hcap hgate e hadd hcov h
    simp only [ForIn.check, hcap, if_neg hgate, hadd, Except.error.injEq] at h
    subst h
    exact unscoped_add_check_no_panic var ctx (Env.new_child env) snd false hadd
  case case40 =>
    intro var capture statements location ctx env err hcap hcov h
    simp only [ForIn.check, hcap, Except.error.injEq] at h
    subst h
    exact expr_no_panic capture ctx env hcov hcap
  case case41 =>
    intro ctx env hcov h
    simp [ScanArms.check] at h
  case case42 =>
    intro x rest ctx env x' env1 hx rest' env2 hrest ih2 ih1 hcov h
    simp [ScanArms.check, hx, hrest] at h
  case case43 =>
    intro x rest ctx env x' env1 hx e hrest ih2 ih1 hcov h
    simp only [ScanArms.check, hx, hrest, Except.error.injEq] at h
    subst h
    exact ih1 hcov hrest
  case case44 =>
    intro x rest ctx env e hx ih1 hcov h
    simp only [ScanArms.check, hx, Except.error.injEq] at h
    subst h
    exact ih1 hcov hx
  case case45 =>
    intro ctx env hcov h
    simp [Statements.check] at h
  case case46 =>
    intro x rest ctx env x' env1 hx rest' env2 hrest ih2 ih1 hcov h
    simp [Statements.check, hx, hrest] at h
  case case47 =>
    intro x rest ctx env x' env1 hx e hrest ih2 ih1 hcov h
    simp only [Statements.check, hx, hrest, Except.error.injEq] at h
    subst h
    exact ih1 hcov hrest
  case case48 =>
    intro x rest ctx env e hx ih1 hcov h
    simp only [Statements.check, hx, Except.error.injEq] at h
    subst h
    exact ih1 hcov hx
  case case49 =>
    intro ctx env hcov h
    simp [IfArms.check] at h
  case case50 =>
    intro x rest ctx env x' env1 hx rest' env2 hrest ih2 ih1 hcov h
    simp [IfArms.check, hx, hrest] at h
  case case51 =>
    intro x rest ctx env x' env1 hx e hrest ih2 ih1 hcov h
    simp only [IfArms.check, hx, hrest, Except.error.injEq] at h
    subst h
    exact ih1 hcov hrest
  case case52 =>
    intro x rest ctx env e hx ih1 hcov h
    simp only [IfArms.check, hx, Except.error.injEq] at h
    subst h
    exact ih1 hcov hx
theorem idxOf?_mem : ∀ (l : List String) (name : String) (i : Nat),
    idxOf? l name = some i → name ∈ l := by
  intro l
  induction l with
  | nil =>
    intro name i h
    simp [idxOf?] at h
  | cons s rest ih =>
    intro name i h
    simp only [idxOf?] at h
    by_cases hs : s = name
    · subst hs
      exact List.mem_cons_self s rest
    · rw [if_neg hs] at h
      cases hr : idxOf? rest name with
      | none => simp [hr] at h
      | some j => exact List.mem_cons_of_mem s (ih name j hr)

theorem stanza_check_no_panic (stanza : Stanza) (ctx : Context) (fq : Query)
    (i : Nat) (hfm : (fq.capture_index_for_name FULL_MATCH).isSome = true)
    (hcov : CheckContext.covers
      { ctx := ctx, file_query := fq, stanza_index := i,
        stanza_query := stanza.query }) :
    Stanza.check stanza ctx fq i ≠ Except.error CheckFailure.panicked := by
  intro h
  cases hm : fq.capture_index_for_name FULL_MATCH with
  | none =>
    rw [hm] at hfm
    exact Bool.noConfusion hfm
  | some idx =>
    cases hs : Statements.check stanza.statements
        { ctx := ctx, file_query := fq, stanza_index := i,
          stanza_query := stanza.query } [[]] with
    | ok o =>
      obtain ⟨sts, env'⟩ := o
      simp [Stanza.check, hm, hs] at h
    | error e =>
      simp only [Stanza.check, hm, hs, Except.error.injEq] at h
      subst h
      exact Statements_check_no_panic stanza.statements _ [[]] hcov hs

theorem stanzas_check_no_panic (ctx : Context) (fq : Query)
    (hfm : (fq.capture_index_for_name FULL_MATCH).isSome = true) :
    ∀ (ss : List Stanza) (i : Nat),
    (∀ k stanza, getAt ss k = some stanza →
      CheckContext.covers
        { ctx := {}, file_query := fq, stanza_index := i + k,
          stanza_query := stanza.query }) →
    Stanzas.check ss ctx fq i ≠ Except.error CheckFailure.panicked := by
  intro ss
  induction ss with
  | nil =>
    intro i hcov h
    simp [Stanzas.check] at h
  | cons s rest ih =>
    intro i hcov h
    cases hs : Stanza.check s ctx fq i with
    | error e =>
      simp only [Stanzas.check, hs, Except.error.injEq] at h
      subst h
      exact stanza_check_no_panic s ctx fq i hfm (hcov 0 s rfl) hs
    | ok s' =>
      cases hrest : Stanzas.check rest ctx fq (i + 1) with
      | error e =>
        simp only [Stanzas.check, hs, hrest, Except.error.injEq] at h
        subst h
        refine ih (i + 1) (fun k stanza hk => ?_) hrest
        have hc := hcov (k + 1) stanza hk
        rwa [show i + (k + 1) = i + 1 + k by omega] at hc
      | ok rest' => simp [Stanzas.check, hs, hrest] at h

/-- C9: under the ambient contract of the compiled file — the file query
is present, defines the special full-match capture name, and provides, for
every stanza at its position, a per-capture cardinality table covering
every capture name the stanza query defines — the asserting unwraps of the
checker never fire: checking the file never panics, it either succeeds or
returns a reported `CheckError`. -/
theorem claim_C9 (file : File) (ctx : Context) (hcov : file.covered) :
    File.check file ctx ≠ Except.error CheckFailure.panicked := by
  cases hq : file.query with
  | none =>
    intro h
    simp only [File.covered, hq] at hcov
  | some fq =>
    simp only [File.covered, hq] at hcov
    obtain ⟨hfm, hst⟩ := hcov
    intro h
    simp only [File.check, hq] at h
    cases hs : Stanzas.check file.stanzas ctx fq 0 with
    | ok stanzas' => simp [hs] at h
    | error e =>
      simp only [hs, Except.error.injEq] at h
      subst h
      refine stanzas_check_no_panic ctx fq hfm file.stanzas 0
        (fun k stanza hk => ?_) hs
      have hc := hst k stanza hk
      rwa [show k = 0 + k by omega] at hc

/-- Witness for C9: the single-stanza example file, whose stanza prints
the list capture, satisfies the ambient contract, so its check does not
panic. -/
theorem claim_C9_witness :
    File.check exFileGood {} ≠ Except.error CheckFailure.panicked := by
  refine claim_C9 exFileGood {} ?_
  refine ⟨rfl, ?_⟩
  intro i stanza hst
  cases i with
  | succ i => exact absurd hst (by simp [exFileGood, getAt])
  | zero =>
    cases Option.some.inj hst
    refine ⟨?_, ?_⟩
    · intro name j hj
      have hm := idxOf?_mem exStanzaQuery.capture_names name j hj
      simp [exStanzaQuery] at hm
      rcases hm with rfl | rfl | rfl <;> rfl
    · exact ⟨_, rfl, rfl⟩

end TSG

